import Mathlib

/-!
TP2 : Personne, Candidat and the contract exceptions

A shallow embedding of `TP2/Source/ContratException.cpp`, `TP2/Include/ContratException.h`,
`TP2/Source/Personne.cpp` and `TP2/Source/Candidat.cpp`.

Conventions of the embedding.

* A `std::string` is a Lean `String`.  The only places where the code looks inside a string are
  `empty()`, `==`, the regular expression of `validerNas` and the digit loop behind it; the
  regular expression accepts ASCII digits and the space only, so the character arithmetic of the
  loop is reached on ASCII text alone.
* A function that can throw returns `Except Echec _`.  `Echec.contrat e` is a thrown
  `ContratException` (the field `genre` records the dynamic class of the exception),
  `Echec.horsBornes` is an access outside the bounds of a `std::vector`.
* A member function that mutates `*this` returns the state in which the object is left, also
  when the call is left by an exception.
* `util::Date` is declared in `Date.h`, outside the four files embedded here: the operations
  that `Personne` uses are the fields of `DateOps`.
* The macros of `ContratException.h` depend on `NDEBUG` and on `__FILE__`: both are the fields
  of `Build`.  `__LINE__` and the stringified condition are taken from the source text.
-/

/-! ## ContratException -/

/-- Dynamic class of a contract exception. -/
inductive Genre where
  | assertion
  | precondition
  | postcondition
  | invariant
  deriving DecidableEq, Repr

/-- Class `ContratException`: a `std::logic_error` (its message is `what`) with the three
members set by the constructor. -/
structure ContratException where
  genre : Genre
  what : String
  m_expression : String
  m_fichier : String
  m_ligne : Nat
  deriving DecidableEq, Repr

/-- Constructor `AssertionException::AssertionException`. -/
def AssertionException (p_fichier : String) (p_ligne : Nat) (p_expression : String) :
    ContratException :=
  { genre := Genre.assertion, what := "ERREUR ASSERTION", m_expression := p_expression,
    m_fichier := p_fichier, m_ligne := p_ligne }

/-- Constructor `PreconditionException::PreconditionException`. -/
def PreconditionException (p_fichier : String) (p_ligne : Nat) (p_expression : String) :
    ContratException :=
  { genre := Genre.precondition, what := "ERREUR PRECONDITION", m_expression := p_expression,
    m_fichier := p_fichier, m_ligne := p_ligne }

/-- Constructor `PostconditionException::PostconditionException`. -/
def PostconditionException (p_fichier : String) (p_ligne : Nat) (p_expression : String) :
    ContratException :=
  { genre := Genre.postcondition, what := "ERREUR POSTCONDITION", m_expression := p_expression,
    m_fichier := p_fichier, m_ligne := p_ligne }

/-- Constructor `InvariantException::InvariantException`. -/
def InvariantException (p_fichier : String) (p_ligne : Nat) (p_expression : String) :
    ContratException :=
  { genre := Genre.invariant, what := "ERREUR INVARIANT", m_expression := p_expression,
    m_fichier := p_fichier, m_ligne := p_ligne }

/-- The manipulator `std::endl`, as far as the text of the stream goes. -/
def endl : String := "\n"

/-- Member `ContratException::reqTexteException`. -/
def ContratException.reqTexteException (e : ContratException) : String :=
  let os := ""
  let os := os ++ "Message    : " ++ e.what ++ endl
  let os := os ++ "Fichier    : " ++ e.m_fichier ++ endl
  let os := os ++ "Ligne      : " ++ toString e.m_ligne ++ endl
  let os := os ++ "Expression : " ++ e.m_expression ++ endl
  os

/-- What can end a call abnormally. -/
inductive Echec where
  | contrat (e : ContratException)
  | horsBornes
  deriving DecidableEq, Repr

deriving instance DecidableEq for Except

/-- Build parameters seen by the macros: whether `NDEBUG` is defined, and the expansion of
`__FILE__` in `Personne.cpp`. -/
structure Build where
  ndebug : Bool
  fichier : String
  deriving DecidableEq, Repr

/-- The debug build (`NDEBUG` not defined) of a source file named `fichier`. -/
def Build.debug (fichier : String) : Build :=
  { ndebug := false, fichier := fichier }

/-- Macro `ASSERTION(f)`: nothing under `NDEBUG` (the condition is not evaluated), otherwise
`if (!(f)) throw AssertionException(__FILE__, __LINE__, #f);`. -/
def ASSERTION (B : Build) (ligne : Nat) (f : Except Echec Bool) (texte : String) :
    Except Echec Unit :=
  if B.ndebug then pure ()
  else do
    let b ← f
    if !b then throw (Echec.contrat (AssertionException B.fichier ligne texte)) else pure ()

/-- Macro `PRECONDITION(f)`. -/
def PRECONDITION (B : Build) (ligne : Nat) (f : Except Echec Bool) (texte : String) :
    Except Echec Unit :=
  if B.ndebug then pure ()
  else do
    let b ← f
    if !b then throw (Echec.contrat (PreconditionException B.fichier ligne texte)) else pure ()

/-- Macro `POSTCONDITION(f)`. -/
def POSTCONDITION (B : Build) (ligne : Nat) (f : Except Echec Bool) (texte : String) :
    Except Echec Unit :=
  if B.ndebug then pure ()
  else do
    let b ← f
    if !b then throw (Echec.contrat (PostconditionException B.fichier ligne texte)) else pure ()

/-- Macro `INVARIANT(f)`. -/
def INVARIANT (B : Build) (ligne : Nat) (f : Except Echec Bool) (texte : String) :
    Except Echec Unit :=
  if B.ndebug then pure ()
  else do
    let b ← f
    if !b then throw (Echec.contrat (InvariantException B.fichier ligne texte)) else pure ()

/-! ## Personne::validerNas -/

/-- The pieces of the regular expression of `validerNas`: the class `\d` and a literal
character. -/
inductive Atome where
  | chiffre
  | lit (c : Char)
  deriving DecidableEq, Repr

/-- Whether one character is accepted by one piece.  In the classic locale `\d` is the
range from 0 to 9. -/
def Atome.accepte : Atome → Char → Bool
  | Atome.chiffre, c => decide (48 ≤ c.toNat ∧ c.toNat ≤ 57)
  | Atome.lit l, c => c == l

/-- The pattern `^\d{3} \d{3} \d{3}$` as a sequence of pieces, each with its repetition count.
The anchors are left out: `std::regex_match` succeeds on a match of the whole string only. -/
def nasPattern : List (Atome × Nat) :=
  [(Atome.chiffre, 3), (Atome.lit ' ', 1), (Atome.chiffre, 3), (Atome.lit ' ', 1),
   (Atome.chiffre, 3)]

/-- The pieces of a pattern written out one per character. -/
def deplie : List (Atome × Nat) → List Atome
  | [] => []
  | (a, n) :: reste => List.replicate n a ++ deplie reste

/-- Match of a character sequence against pieces, one character per piece, nothing left. -/
def correspond : List Atome → List Char → Bool
  | [], [] => true
  | a :: as, c :: cs => a.accepte c && correspond as cs
  | _, _ => false

/-- The call `std::regex_match(s, pattern)` for patterns made of counted single-character
pieces. -/
def regex_match (s : String) (pattern : List (Atome × Nat)) : Bool :=
  correspond (deplie pattern) s.data

/-- The function `::isspace` in the classic locale: space, and the five controls from
horizontal tab to carriage return.  `validerNas` calls it behind a successful match only, that
is on ASCII digits and spaces. -/
def isspace (c : Char) : Bool :=
  c.toNat == 32 || (9 ≤ c.toNat && c.toNat ≤ 13)

/-- The erase-remove idiom on `nasSansEspaces`: the characters that are not spaces, in order. -/
def sansEspaces (s : String) : List Char :=
  s.data.filter (fun c => !isspace c)

/-- The vector `multiplicateur`. -/
def multiplicateur : List Int := [1, 2, 1, 2, 1, 2, 1, 2, 1]

/-- The `for` loop of `validerNas` from index `i` on, `cs` being the characters from `i` to the
end and `somme` the running sum.  The access `multiplicateur[i]` fails outside the vector. -/
def boucle : List Char → Nat → Int → Except Echec Int
  | [], _, somme => pure somme
  | c :: cs, i, somme =>
    match multiplicateur.get? i with
    | none => throw Echec.horsBornes
    | some m =>
      let produit : Int := ((c.toNat : Int) - (('0').toNat : Int)) * m
      boucle cs (i + 1) (somme + (if produit ≥ 10 then produit - 9 else produit))

/-- The value of `somme` after the loop of `validerNas` on the string `p_nas`. -/
def sommeNas (p_nas : String) : Except Echec Int :=
  boucle (sansEspaces p_nas) 0 0

/-- Static member `Personne::validerNas`. -/
def validerNas (p_nas : String) : Except Echec Bool :=
  let estValide := true
  let estValide := if !regex_match p_nas nasPattern then false else estValide
  if estValide then do
    let somme ← sommeNas p_nas
    if somme.tmod 10 != 0 then pure false else pure estValide
  else pure estValide

/-! ## util::Date -/

/-- The operations of `util::Date` used by `Personne`: the three component accessors, the
static predicate `validerDate`, the rendering `reqDateFormatee` and `operator==`.  They are
taken as given, side-effect free and returning normally. -/
structure DateOps (Date : Type) where
  reqJour : Date → Int
  reqMois : Date → Int
  reqAnnee : Date → Int
  validerDate : Int → Int → Int → Bool
  reqDateFormatee : Date → String
  operator_eq : Date → Date → Bool

/-- The argument of the date checks of `Personne`:
`util::Date::validerDate(d.reqJour(), d.reqMois(), d.reqAnnee())`. -/
def DateOps.dateValide {Date : Type} (D : DateOps Date) (d : Date) : Bool :=
  D.validerDate (D.reqJour d) (D.reqMois d) (D.reqAnnee d)

/-! ## Personne -/

/-- The member `std::string::empty`. -/
def empty (s : String) : Bool := s.length == 0

/-- Data members of class `election::Personne`. -/
structure Personne (Date : Type) where
  m_nas : String
  m_prenom : String
  m_nom : String
  m_adresse : String
  m_dateNaissance : Date

/-- Outcome of a call of a mutating member function: normal return or the exception thrown,
the state in which the object is left, and the text written to `std::cout`. -/
structure Appel (σ : Type) where
  issue : Except Echec Unit
  objet : σ
  cout : String

/-- Member `Personne::verifieInvariant`. -/
def Personne.verifieInvariant {Date : Type} (B : Build) (D : DateOps Date)
    (self : Personne Date) : Except Echec Unit := do
  INVARIANT B 81 (validerNas self.m_nas) "validerNas(m_nas)"
  INVARIANT B 82 (pure (!empty self.m_nas)) "!m_nas.empty()"
  INVARIANT B 83 (pure (!empty self.m_prenom)) "!m_prenom.empty()"
  INVARIANT B 84 (pure (!empty self.m_nom)) "!m_nom.empty()"
  INVARIANT B 85 (pure (!empty self.m_adresse)) "!m_adresse.empty()"
  INVARIANT B 86 (pure (D.dateValide self.m_dateNaissance))
    "util::Date::validerDate(m_dateNaissance.reqJour(), m_dateNaissance.reqMois(), m_dateNaissance.reqAnnee())"

/-- Macro `INVARIANTS()`: nothing under `NDEBUG`, otherwise the call `verifieInvariant()`,
given here with its outcome and its output. -/
def INVARIANTS (B : Build) (verifieInvariant : Except Echec Unit × String) :
    Except Echec Unit × String :=
  if B.ndebug then (pure (), "") else verifieInvariant

/-- Constructor `Personne::Personne` (a Lean structure cannot hold a function of its own
name).  The members are initialised first, then the checks
run; while the constructor body runs the dynamic type of the object is `Personne`, so
`INVARIANTS()` calls `Personne::verifieInvariant`, which writes nothing. -/
def Personne.constructeur {Date : Type} (B : Build) (D : DateOps Date)
    (p_nas p_prenom p_nom p_adresse : String) (p_dateNaissance : Date) :
    Except Echec (Personne Date) := do
  let self := Personne.mk p_nas p_prenom p_nom p_adresse p_dateNaissance
  PRECONDITION B 14 (pure (!empty p_nas)) "!p_nas.empty()"
  PRECONDITION B 15 (validerNas p_nas) "validerNas(p_nas)"
  PRECONDITION B 16 (pure (!empty p_prenom)) "!p_prenom.empty()"
  PRECONDITION B 17 (pure (!empty p_adresse)) "!p_adresse.empty()"
  PRECONDITION B 18 (pure (D.dateValide p_dateNaissance))
    "util::Date::validerDate(p_dateNaissance.reqJour(), p_dateNaissance.reqMois(), p_dateNaissance.reqAnnee())"
  POSTCONDITION B 20 (pure (self.m_nas == p_nas)) "m_nas == p_nas"
  POSTCONDITION B 21 (pure (self.m_prenom == p_prenom)) "m_prenom == p_prenom"
  POSTCONDITION B 22 (pure (self.m_nom == p_nom)) "m_nom == p_nom"
  POSTCONDITION B 23 (pure (self.m_adresse == p_adresse)) "m_adresse == p_adresse"
  POSTCONDITION B 24 (pure (D.operator_eq self.m_dateNaissance p_dateNaissance))
    "m_dateNaissance == p_dateNaissance"
  (INVARIANTS B (Personne.verifieInvariant B D self, "")).1
  pure self

/-- Member `Personne::reqNas`. -/
def Personne.reqNas {Date : Type} (self : Personne Date) : String := self.m_nas

/-- Member `Personne::reqPrenom`. -/
def Personne.reqPrenom {Date : Type} (self : Personne Date) : String := self.m_prenom

/-- Member `Personne::reqNom`. -/
def Personne.reqNom {Date : Type} (self : Personne Date) : String := self.m_nom

/-- Member `Personne::reqAdresse`. -/
def Personne.reqAdresse {Date : Type} (self : Personne Date) : String := self.m_adresse

/-- Member `Personne::reqDateNaissance`. -/
def Personne.reqDateNaissance {Date : Type} (self : Personne Date) : Date :=
  self.m_dateNaissance

/-- Member `Personne::asgAdresse`.  It is not virtual, but the `verifieInvariant()` behind
`INVARIANTS()` is: the argument `verifieInvariant` is the override of the dynamic class of the
object, applied to the object whose `Personne` part is given. -/
def Personne.asgAdresse {Date : Type} (B : Build)
    (verifieInvariant : Personne Date → Except Echec Unit × String)
    (self : Personne Date) (p_nouvelleAdresse : String) : Appel (Personne Date) :=
  match PRECONDITION B 53 (pure (!empty p_nouvelleAdresse)) "!p_nouvelleAdresse.empty()" with
  | Except.error e => { issue := Except.error e, objet := self, cout := "" }
  | Except.ok _ =>
    let self := { self with m_adresse := p_nouvelleAdresse }
    match POSTCONDITION B 55 (pure (self.m_adresse == p_nouvelleAdresse))
        "m_adresse == p_nouvelleAdresse" with
    | Except.error e => { issue := Except.error e, objet := self, cout := "" }
    | Except.ok _ =>
      let r := INVARIANTS B (verifieInvariant self)
      { issue := r.1, objet := self, cout := r.2 }

/-- The call `p.asgAdresse(a)` on an object whose dynamic class is `Personne`. -/
def asgAdressePersonne {Date : Type} (B : Build) (D : DateOps Date) (self : Personne Date)
    (p_nouvelleAdresse : String) : Appel (Personne Date) :=
  Personne.asgAdresse B (fun p => (Personne.verifieInvariant B D p, "")) self p_nouvelleAdresse

/-- Member `Personne::operator==`. -/
def Personne.operator_eq {Date : Type} (D : DateOps Date) (self p_autrePersonne : Personne Date) :
    Bool :=
  self.m_nas == p_autrePersonne.m_nas &&
    self.m_prenom == p_autrePersonne.m_prenom &&
      self.m_nom == p_autrePersonne.m_nom &&
        self.m_adresse == p_autrePersonne.m_adresse &&
          D.operator_eq self.m_dateNaissance p_autrePersonne.m_dateNaissance

/-- Member `Personne::reqPersonneFormate`; `os` is the text of the `std::ostringstream`. -/
def Personne.reqPersonneFormate {Date : Type} (D : DateOps Date) (self : Personne Date) :
    String :=
  let os := ""
  let os := os ++ "NAS               : " ++ self.reqNas ++ endl
  let os := os ++ "Prenom            : " ++ self.reqPrenom ++ endl
  let os := os ++ "Nom               : " ++ self.reqNom ++ endl
  let os := os ++ "Date de naissance : " ++ D.reqDateFormatee self.m_dateNaissance ++ endl
  let os := os ++ "Adresse           : " ++ self.reqAdresse ++ endl
  os

/-! ## Candidat -/

/-- Enumeration `election::PartisPolitiques`. -/
inductive PartisPolitiques where
  | BLOC_QUEBECOIS
  | CONSERVATEUR
  | INDEPENDANT
  | LIBERAL
  | NOUVEAU_PARTI_DEMOCRATIQUE
  deriving DecidableEq, Repr

/-- Class `election::Candidat`: a `Personne` with one more data member. -/
structure Candidat (Date : Type) extends Personne Date where
  m_partiPolitique : PartisPolitiques

/-- Constructor `Candidat::Candidat`: the base constructor, then the member; the body is
empty. -/
def Candidat.constructeur {Date : Type} (B : Build) (D : DateOps Date)
    (p_nas p_prenom p_nom p_adresse : String) (p_dateNaissance : Date)
    (p_partiPolitique : PartisPolitiques) : Except Echec (Candidat Date) := do
  let base ← Personne.constructeur B D p_nas p_prenom p_nom p_adresse p_dateNaissance
  pure (Candidat.mk base p_partiPolitique)

/-- Member `Candidat::reqPartiPolitique`. -/
def Candidat.reqPartiPolitique {Date : Type} (self : Candidat Date) : PartisPolitiques :=
  self.m_partiPolitique

/-- Member `Candidat::verifieInvariant`: it writes one word to `std::cout` and checks
nothing. -/
def Candidat.verifieInvariant {Date : Type} (_self : Candidat Date) : Except Echec Unit × String :=
  (pure (), "Invariants")

/-- The call `c.asgAdresse(a)` on an object whose dynamic class is `Candidat`. -/
def asgAdresseCandidat {Date : Type} (B : Build) (self : Candidat Date)
    (p_nouvelleAdresse : String) : Appel (Candidat Date) :=
  let r := Personne.asgAdresse B
    (fun p => Candidat.verifieInvariant { self with toPersonne := p })
    self.toPersonne p_nouvelleAdresse
  { issue := r.issue, objet := { self with toPersonne := r.objet }, cout := r.cout }

/-- Member `Candidat::reqPersonneFormate`. -/
def Candidat.reqPersonneFormate {Date : Type} (D : DateOps Date) (self : Candidat Date) :
    String :=
  let os := ""
  let os := os ++ "Candidat" ++ endl
  let os := os ++ "------------------------------------" ++ endl
  let os := os ++ Personne.reqPersonneFormate D self.toPersonne ++ endl
  os

/-! ## Vocabulary of the statements -/

/-- A decimal digit character. -/
def estChiffre (c : Char) : Prop := 48 ≤ c.toNat ∧ c.toNat ≤ 57

instance (c : Char) : Decidable (estChiffre c) := by unfold estChiffre; infer_instance

/-- The text `c0c1c2 c3c4c5 c6c7c8`. -/
def formeGroupee (c0 c1 c2 c3 c4 c5 c6 c7 c8 : Char) : String :=
  String.mk [c0, c1, c2, ' ', c3, c4, c5, ' ', c6, c7, c8]

/-- The strings of the form DDD DDD DDD. -/
def EstFormeNas (s : String) : Prop :=
  ∃ c0 c1 c2 c3 c4 c5 c6 c7 c8 : Char,
    (estChiffre c0 ∧ estChiffre c1 ∧ estChiffre c2 ∧ estChiffre c3 ∧ estChiffre c4 ∧
      estChiffre c5 ∧ estChiffre c6 ∧ estChiffre c7 ∧ estChiffre c8) ∧
    s = formeGroupee c0 c1 c2 c3 c4 c5 c6 c7 c8

/-- The reduction of the specification: `p - 9` from ten on, `p` below. -/
def reduit (p : Nat) : Nat := if p ≥ 10 then p - 9 else p

/-- The weighted sum of the specification over digit values, weights 1,2,1,2,1,2,1,2,1. -/
def sommePonderee (d0 d1 d2 d3 d4 d5 d6 d7 d8 : Nat) : Nat :=
  reduit (d0 * 1) + reduit (d1 * 2) + reduit (d2 * 1) + reduit (d3 * 2) + reduit (d4 * 1) +
    reduit (d5 * 2) + reduit (d6 * 1) + reduit (d7 * 2) + reduit (d8 * 1)

/-- The character of a digit value. -/
def chiffre (d : Nat) : Char := Char.ofNat (48 + d)

/-- A stand-in for `util::Date`, to instantiate the statements on concrete data: a date is
the triple (jour, mois, annee), valid when the day is one of the first 28 of a month from
1 to 12 and the year is 1970 or later; two dates are equal when the triples are. -/
def dateTriplet : DateOps (Int × Int × Int) :=
  { reqJour := fun d => d.1,
    reqMois := fun d => d.2.1,
    reqAnnee := fun d => d.2.2,
    validerDate := fun j m a => decide (1 ≤ j ∧ j ≤ 28 ∧ 1 ≤ m ∧ m ≤ 12 ∧ 1970 ≤ a),
    reqDateFormatee := fun d => toString d.1 ++ "/" ++ toString d.2.1 ++ "/" ++ toString d.2.2,
    operator_eq := fun a b => decide (a = b) }

/-- The class invariant as the specification words it: the id passes `validerNas` and is not
empty, the first name, the last name and the address are not empty, the date passes
`validerDate`. -/
def InvariantPersonne {Date : Type} (D : DateOps Date) (p : Personne Date) : Prop :=
  validerNas p.m_nas = Except.ok true ∧ p.m_nas ≠ "" ∧ p.m_prenom ≠ "" ∧ p.m_nom ≠ "" ∧
    p.m_adresse ≠ "" ∧
    D.validerDate (D.reqJour p.m_dateNaissance) (D.reqMois p.m_dateNaissance)
      (D.reqAnnee p.m_dateNaissance) = true

/-- The state of an object of dynamic class `Personne` after the calls `asgAdresse(a)` for
the elements `a` of a list, in order; a call left by an exception leaves the object in the
state that `asgAdresse` left it in. -/
def suitePersonne {Date : Type} (B : Build) (D : DateOps Date) :
    Personne Date → List String → Personne Date
  | p, [] => p
  | p, a :: reste => suitePersonne B D (asgAdressePersonne B D p a).objet reste

/-- The state of an object of dynamic class `Candidat` after the calls `asgAdresse(a)` for
the elements `a` of a list, in order. -/
def suiteCandidat {Date : Type} (B : Build) : Candidat Date → List String → Candidat Date
  | c, [] => c
  | c, a :: reste => suiteCandidat B (asgAdresseCandidat B c a).objet reste

/-! ## The Luhn check, as the specification words it -/

/-- Sum of the decimal digits of `n`, read from the units on; `carburant` bounds the number
of digits read. -/
def sommeChiffresAux : Nat → Nat → Nat
  | 0, _ => 0
  | carburant + 1, n => if n = 0 then 0 else n % 10 + sommeChiffresAux carburant (n / 10)

/-- Sum of the decimal digits of `n`. -/
def sommeChiffres (n : Nat) : Nat := sommeChiffresAux (n + 1) n

/-- The Luhn total of digits listed from the rightmost one on: `double` tells whether the
digit at the head is a second digit, which is doubled and replaced by the sum of the decimal
digits of its double. -/
def luhnDepuisDroite : List Nat → Bool → Nat
  | [], _ => 0
  | d :: reste, false => d + luhnDepuisDroite reste true
  | d :: reste, true => sommeChiffres (2 * d) + luhnDepuisDroite reste false

/-- The Luhn total of a number given by its digits, leftmost first: counting from the
rightmost digit, every second digit is doubled. -/
def luhnTotal (chiffres : List Nat) : Nat := luhnDepuisDroite chiffres.reverse false

/-- The canonical Luhn check: the total is divisible by 10. -/
def luhnValide (chiffres : List Nat) : Bool := luhnTotal chiffres % 10 == 0

/-- The digit values of a string, spaces left out, leftmost first. -/
def chiffresDe (s : String) : List Nat := (sansEspaces s).map (fun c => c.toNat - 48)

/-- The text `d0d1d2 d3d4d5 d6d7d8` of nine digit values. -/
def nasDe (d : Fin 9 → Fin 10) : String :=
  formeGroupee (chiffre (d 0)) (chiffre (d 1)) (chiffre (d 2)) (chiffre (d 3)) (chiffre (d 4))
    (chiffre (d 5)) (chiffre (d 6)) (chiffre (d 7)) (chiffre (d 8))

/-! ## Lemmas on validerNas, the contract macros and Personne -/

theorem deplie_nasPattern : deplie nasPattern =
    [Atome.chiffre, Atome.chiffre, Atome.chiffre, Atome.lit ' ', Atome.chiffre, Atome.chiffre,
     Atome.chiffre, Atome.lit ' ', Atome.chiffre, Atome.chiffre, Atome.chiffre] := rfl

theorem regex_match_forme (c0 c1 c2 c3 c4 c5 c6 c7 c8 : Char)
    (h0 : estChiffre c0) (h1 : estChiffre c1) (h2 : estChiffre c2) (h3 : estChiffre c3)
    (h4 : estChiffre c4) (h5 : estChiffre c5) (h6 : estChiffre c6) (h7 : estChiffre c7)
    (h8 : estChiffre c8) :
    regex_match (formeGroupee c0 c1 c2 c3 c4 c5 c6 c7 c8) nasPattern = true := by
  unfold estChiffre at *
  simp [regex_match, deplie_nasPattern, formeGroupee, correspond, Atome.accepte, *]

theorem regex_match_estForme (s : String) (h : regex_match s nasPattern = true) :
    EstFormeNas s := by
  obtain ⟨l⟩ := s
  unfold regex_match at h
  rw [deplie_nasPattern] at h
  simp only [] at h
  rcases l with _ | ⟨a0, _ | ⟨a1, _ | ⟨a2, _ | ⟨a3, _ | ⟨a4, _ | ⟨a5, _ | ⟨a6, _ | ⟨a7, _ |
    ⟨a8, _ | ⟨a9, _ | ⟨a10, _ | ⟨a11, l⟩⟩⟩⟩⟩⟩⟩⟩⟩⟩⟩⟩ <;>
    simp [correspond, Atome.accepte] at h
  obtain ⟨h0, h1, h2, h3, h4, h5, h6, h7, h8, h9, h10⟩ := h
  subst h3 h7
  exact ⟨a0, a1, a2, a4, a5, a6, a8, a9, a10, ⟨h0, h1, h2, h4, h5, h6, h8, h9, h10⟩, rfl⟩

theorem isspace_of_estChiffre (c : Char) (h : estChiffre c) : isspace c = false := by
  unfold estChiffre at h
  unfold isspace
  simp
  omega

theorem sansEspaces_forme (c0 c1 c2 c3 c4 c5 c6 c7 c8 : Char)
    (h0 : estChiffre c0) (h1 : estChiffre c1) (h2 : estChiffre c2) (h3 : estChiffre c3)
    (h4 : estChiffre c4) (h5 : estChiffre c5) (h6 : estChiffre c6) (h7 : estChiffre c7)
    (h8 : estChiffre c8) :
    sansEspaces (formeGroupee c0 c1 c2 c3 c4 c5 c6 c7 c8) =
      [c0, c1, c2, c3, c4, c5, c6, c7, c8] := by
  have e : isspace ' ' = true := by decide
  simp [sansEspaces, formeGroupee, List.filter, isspace_of_estChiffre, e, *]

/-- One step of the loop, on a digit character of value `d`. -/
theorem terme_eq (c : Char) (d : Nat) (w : Nat) (hc : c.toNat = 48 + d) :
    (if ((c.toNat : Int) - (('0').toNat : Int)) * (w : Int) ≥ 10
      then ((c.toNat : Int) - (('0').toNat : Int)) * (w : Int) - 9
      else ((c.toNat : Int) - (('0').toNat : Int)) * (w : Int)) = ((reduit (d * w) : Nat) : Int) := by
  have e : (('0').toNat : Int) = 48 := by decide
  rw [hc, e]
  have : ((48 + d : Nat) : Int) - 48 = (d : Int) := by push_cast; ring
  rw [this]
  unfold reduit
  have hm : (d : Int) * (w : Int) = ((d * w : Nat) : Int) := by push_cast; ring
  rw [hm]
  generalize d * w = p
  split_ifs with h1 h2 h2 <;> omega

theorem sommeNas_liste (c0 c1 c2 c3 c4 c5 c6 c7 c8 : Char) (d0 d1 d2 d3 d4 d5 d6 d7 d8 : Nat)
    (h0 : c0.toNat = 48 + d0) (h1 : c1.toNat = 48 + d1) (h2 : c2.toNat = 48 + d2)
    (h3 : c3.toNat = 48 + d3) (h4 : c4.toNat = 48 + d4) (h5 : c5.toNat = 48 + d5)
    (h6 : c6.toNat = 48 + d6) (h7 : c7.toNat = 48 + d7) (h8 : c8.toNat = 48 + d8) :
    boucle [c0, c1, c2, c3, c4, c5, c6, c7, c8] 0 0 =
      Except.ok ((sommePonderee d0 d1 d2 d3 d4 d5 d6 d7 d8 : Nat) : Int) := by
  have t0 := terme_eq c0 d0 1 h0
  have t1 := terme_eq c1 d1 2 h1
  have t2 := terme_eq c2 d2 1 h2
  have t3 := terme_eq c3 d3 2 h3
  have t4 := terme_eq c4 d4 1 h4
  have t5 := terme_eq c5 d5 2 h5
  have t6 := terme_eq c6 d6 1 h6
  have t7 := terme_eq c7 d7 2 h7
  have t8 := terme_eq c8 d8 1 h8
  simp only [Nat.cast_one, Nat.cast_ofNat] at t0 t1 t2 t3 t4 t5 t6 t7 t8
  simp only [boucle, multiplicateur, List.get?, t0, t1, t2, t3, t4, t5, t6, t7, t8]
  simp only [pure, Except.pure, sommePonderee]
  congr 1
  push_cast
  ring

theorem natCast_tmod_dix (n : Nat) : ((n : Int).tmod 10 != 0) = !decide (n % 10 = 0) := by
  have h : (n : Int).tmod 10 = ((n % 10 : Nat) : Int) := by
    rw [Int.tmod_eq_emod (by omega) (by omega)]
    omega
  rw [h]
  by_cases h0 : n % 10 = 0
  · simp [h0]
  · simp [h0]
    omega

theorem estChiffre_valeur (c : Char) (h : estChiffre c) :
    c.toNat = 48 + (c.toNat - 48) ∧ c.toNat - 48 < 10 := by
  unfold estChiffre at h
  omega

/-- The value of `validerNas` on a string of the form DDD DDD DDD. -/
theorem validerNas_forme (c0 c1 c2 c3 c4 c5 c6 c7 c8 : Char)
    (h0 : estChiffre c0) (h1 : estChiffre c1) (h2 : estChiffre c2) (h3 : estChiffre c3)
    (h4 : estChiffre c4) (h5 : estChiffre c5) (h6 : estChiffre c6) (h7 : estChiffre c7)
    (h8 : estChiffre c8) :
    validerNas (formeGroupee c0 c1 c2 c3 c4 c5 c6 c7 c8) =
      Except.ok (decide (sommePonderee (c0.toNat - 48) (c1.toNat - 48) (c2.toNat - 48)
        (c3.toNat - 48) (c4.toNat - 48) (c5.toNat - 48) (c6.toNat - 48) (c7.toNat - 48)
        (c8.toNat - 48) % 10 = 0)) := by
  have hr := regex_match_forme c0 c1 c2 c3 c4 c5 c6 c7 c8 h0 h1 h2 h3 h4 h5 h6 h7 h8
  have hs : sommeNas (formeGroupee c0 c1 c2 c3 c4 c5 c6 c7 c8) = _ :=
    (congrArg (fun l => boucle l 0 0)
      (sansEspaces_forme c0 c1 c2 c3 c4 c5 c6 c7 c8 h0 h1 h2 h3 h4 h5 h6 h7 h8)).trans
    (sommeNas_liste c0 c1 c2 c3 c4 c5 c6 c7 c8 _ _ _ _ _ _ _ _ _
      (estChiffre_valeur c0 h0).1 (estChiffre_valeur c1 h1).1 (estChiffre_valeur c2 h2).1
      (estChiffre_valeur c3 h3).1 (estChiffre_valeur c4 h4).1 (estChiffre_valeur c5 h5).1
      (estChiffre_valeur c6 h6).1 (estChiffre_valeur c7 h7).1 (estChiffre_valeur c8 h8).1)
  unfold validerNas
  simp only [hr, hs, Bool.not_true, Bool.false_eq_true, if_false, if_true, bind, Except.bind,
    natCast_tmod_dix]
  by_cases hz : sommePonderee (c0.toNat - 48) (c1.toNat - 48) (c2.toNat - 48)
        (c3.toNat - 48) (c4.toNat - 48) (c5.toNat - 48) (c6.toNat - 48) (c7.toNat - 48)
        (c8.toNat - 48) % 10 = 0
  · simp [hz, pure, Except.pure]
  · simp [hz, pure, Except.pure]

/-- Outside the form DDD DDD DDD the answer is false. -/
theorem validerNas_hors_forme (s : String) (h : regex_match s nasPattern = false) :
    validerNas s = Except.ok false := by
  unfold validerNas
  simp [h, pure, Except.pure]

theorem validerNas_total (s : String) : ∃ b, validerNas s = Except.ok b := by
  by_cases h : regex_match s nasPattern = true
  · obtain ⟨c0, c1, c2, c3, c4, c5, c6, c7, c8, ⟨h0, h1, h2, h3, h4, h5, h6, h7, h8⟩, rfl⟩ :=
      regex_match_estForme s h
    exact ⟨_, validerNas_forme c0 c1 c2 c3 c4 c5 c6 c7 c8 h0 h1 h2 h3 h4 h5 h6 h7 h8⟩
  · exact ⟨false, validerNas_hors_forme s (by simpa using h)⟩

theorem chiffre_spec : ∀ d : Fin 10, estChiffre (chiffre d) ∧ (chiffre d).toNat - 48 = d := by
  decide

theorem empty_iff (s : String) : empty s = true ↔ s = "" := by
  unfold empty
  constructor
  · intro h
    have h1 : s.data.length = 0 := of_decide_eq_true h
    have h2 : s.data = [] := List.length_eq_zero.mp h1
    exact String.ext h2
  · rintro rfl
    rfl

theorem PRECONDITION_debug (f : String) (l : Nat) (b : Bool) (t : String) :
    PRECONDITION (Build.debug f) l (Except.ok b) t =
      if b then Except.ok () else Except.error (Echec.contrat (PreconditionException f l t)) := by
  cases b <;> rfl

theorem POSTCONDITION_debug (f : String) (l : Nat) (b : Bool) (t : String) :
    POSTCONDITION (Build.debug f) l (Except.ok b) t =
      if b then Except.ok () else Except.error (Echec.contrat (PostconditionException f l t)) := by
  cases b <;> rfl

theorem INVARIANT_debug (f : String) (l : Nat) (b : Bool) (t : String) :
    INVARIANT (Build.debug f) l (Except.ok b) t =
      if b then Except.ok () else Except.error (Echec.contrat (InvariantException f l t)) := by
  cases b <;> rfl

/-- The invariant check in the debug build, as a chain of tests. -/
theorem verifieInvariant_debug {Date : Type} (f : String) (D : DateOps Date) (p : Personne Date) :
    Personne.verifieInvariant (Build.debug f) D p =
      if validerNas p.m_nas ≠ Except.ok true then
        Except.error (Echec.contrat (InvariantException f 81 "validerNas(m_nas)"))
      else if empty p.m_nas then
        Except.error (Echec.contrat (InvariantException f 82 "!m_nas.empty()"))
      else if empty p.m_prenom then
        Except.error (Echec.contrat (InvariantException f 83 "!m_prenom.empty()"))
      else if empty p.m_nom then
        Except.error (Echec.contrat (InvariantException f 84 "!m_nom.empty()"))
      else if empty p.m_adresse then
        Except.error (Echec.contrat (InvariantException f 85 "!m_adresse.empty()"))
      else if !D.dateValide p.m_dateNaissance then
        Except.error (Echec.contrat (InvariantException f 86
          "util::Date::validerDate(m_dateNaissance.reqJour(), m_dateNaissance.reqMois(), m_dateNaissance.reqAnnee())"))
      else Except.ok () := by
  obtain ⟨b, hb⟩ := validerNas_total p.m_nas
  unfold Personne.verifieInvariant
  simp only [hb, pure, Except.pure, INVARIANT_debug, bind, Except.bind]
  cases b <;> cases empty p.m_nas <;> cases empty p.m_prenom <;> cases empty p.m_nom <;>
    cases empty p.m_adresse <;> cases D.dateValide p.m_dateNaissance <;> rfl

/-- The constructor in the debug build, as a chain of tests. -/
theorem constructeur_debug {Date : Type} (f : String) (D : DateOps Date)
    (nas prenom nom adresse : String) (d : Date) :
    Personne.constructeur (Build.debug f) D nas prenom nom adresse d =
      if empty nas then
        Except.error (Echec.contrat (PreconditionException f 14 "!p_nas.empty()"))
      else if validerNas nas ≠ Except.ok true then
        Except.error (Echec.contrat (PreconditionException f 15 "validerNas(p_nas)"))
      else if empty prenom then
        Except.error (Echec.contrat (PreconditionException f 16 "!p_prenom.empty()"))
      else if empty adresse then
        Except.error (Echec.contrat (PreconditionException f 17 "!p_adresse.empty()"))
      else if !D.dateValide d then
        Except.error (Echec.contrat (PreconditionException f 18
          "util::Date::validerDate(p_dateNaissance.reqJour(), p_dateNaissance.reqMois(), p_dateNaissance.reqAnnee())"))
      else if !D.operator_eq d d then
        Except.error (Echec.contrat (PostconditionException f 24
          "m_dateNaissance == p_dateNaissance"))
      else if empty nom then
        Except.error (Echec.contrat (InvariantException f 84 "!m_nom.empty()"))
      else Except.ok (Personne.mk nas prenom nom adresse d) := by
  obtain ⟨b, hb⟩ := validerNas_total nas
  unfold Personne.constructeur
  have hdbg : (Build.debug f).ndebug = false := rfl
  simp only [hb, pure, Except.pure, PRECONDITION_debug, POSTCONDITION_debug, bind, Except.bind,
    INVARIANTS, hdbg, verifieInvariant_debug, beq_self_eq_true]
  cases b <;> cases empty nas <;> cases empty prenom <;> cases empty nom <;>
    cases empty adresse <;> cases D.dateValide d <;> cases D.operator_eq d d <;> rfl

/-- Under `NDEBUG` the constructor only stores its arguments. -/
theorem constructeur_ndebug {Date : Type} (B : Build) (hB : B.ndebug = true) (D : DateOps Date)
    (nas prenom nom adresse : String) (d : Date) :
    Personne.constructeur B D nas prenom nom adresse d =
      Except.ok (Personne.mk nas prenom nom adresse d) := by
  unfold Personne.constructeur
  simp [PRECONDITION, POSTCONDITION, INVARIANTS, hB, pure, Except.pure, bind, Except.bind]

/-- A successful construction yields the object holding the five arguments. -/
theorem constructeur_ok {Date : Type} (B : Build) (D : DateOps Date)
    (nas prenom nom adresse : String) (d : Date) (p : Personne Date)
    (hp : Personne.constructeur B D nas prenom nom adresse d = Except.ok p) :
    p = Personne.mk nas prenom nom adresse d := by
  obtain ⟨n, f⟩ := B
  cases n
  · have hp2 : Personne.constructeur (Build.debug f) D nas prenom nom adresse d = Except.ok p :=
      hp
    rw [constructeur_debug] at hp2
    split_ifs at hp2
    exact (Except.ok.inj hp2).symm
  · rw [constructeur_ndebug _ rfl] at hp
    exact (Except.ok.inj hp).symm

/-- After `asgAdresse` with a non-empty argument the address is the argument, in every build
and whatever the invariant check does. -/
theorem asgAdresse_objet {Date : Type} (B : Build)
    (verifieInvariant : Personne Date → Except Echec Unit × String) (p : Personne Date)
    (a : String) (ha : a ≠ "") :
    (Personne.asgAdresse B verifieInvariant p a).objet = { p with m_adresse := a } := by
  have h4 : empty a = false := by
    cases h : empty a
    · rfl
    · exact absurd ((empty_iff a).mp h) ha
  obtain ⟨n, f⟩ := B
  cases n
  · unfold Personne.asgAdresse
    simp [PRECONDITION, POSTCONDITION, h4, pure, Except.pure, bind, Except.bind]
  · unfold Personne.asgAdresse
    simp [PRECONDITION, POSTCONDITION, pure, Except.pure]

/-- Without a line break in the five values, the rendering has five line breaks. -/
theorem reqPersonneFormate_sauts {Date : Type} (D : DateOps Date) (p : Personne Date)
   (h1 : '\n' ∉ p.reqNas.data) (h2 : '\n' ∉ p.reqPrenom.data) (h3 : '\n' ∉ p.reqNom.data)
   (h4 : '\n' ∉ (D.reqDateFormatee p.reqDateNaissance).data) (h5 : '\n' ∉ p.reqAdresse.data) :
   (Personne.reqPersonneFormate D p).data.count '\n' = 5 := by
  simp only [Personne.reqNas, Personne.reqPrenom, Personne.reqNom, Personne.reqAdresse,
    Personne.reqDateNaissance] at h1 h2 h3 h4 h5
  have e0 : ("").data.count '\n' = 0 := rfl
  have e1 : ("NAS               : ").data.count '\n' = 0 := by decide
  have e2 : ("Prenom            : ").data.count '\n' = 0 := by decide
  have e3 : ("Nom               : ").data.count '\n' = 0 := by decide
  have e4 : ("Date de naissance : ").data.count '\n' = 0 := by decide
  have e5 : ("Adresse           : ").data.count '\n' = 0 := by decide
  have e6 : (endl).data.count '\n' = 1 := by decide
  simp only [Personne.reqPersonneFormate, Personne.reqNas, Personne.reqPrenom, Personne.reqNom,
    Personne.reqAdresse, String.data_append, List.count_append, e0, e1, e2, e3, e4, e5, e6,
    List.count_eq_zero_of_not_mem h1, List.count_eq_zero_of_not_mem h2,
    List.count_eq_zero_of_not_mem h3, List.count_eq_zero_of_not_mem h4,
    List.count_eq_zero_of_not_mem h5]

theorem empty_false_iff (s : String) : empty s = false ↔ s ≠ "" := by
  have h := empty_iff s
  cases he : empty s
  · rw [he] at h
    exact ⟨fun _ hs => by simpa using h.mpr hs, fun _ => rfl⟩
  · rw [he] at h
    exact ⟨fun hf => by simp at hf, fun hs => absurd (h.mp rfl) hs⟩

/-- The invariant of the specification is what `verifieInvariant` checks in the debug build. -/
theorem invariant_iff_verifie {Date : Type} (f : String) (D : DateOps Date) (p : Personne Date) :
    InvariantPersonne D p ↔ Personne.verifieInvariant (Build.debug f) D p = Except.ok () := by
  obtain ⟨b, hb⟩ := validerNas_total p.m_nas
  unfold InvariantPersonne
  rw [verifieInvariant_debug, hb, ← empty_false_iff, ← empty_false_iff, ← empty_false_iff,
    ← empty_false_iff]
  change _ ↔ _
  have hd : D.validerDate (D.reqJour p.m_dateNaissance) (D.reqMois p.m_dateNaissance)
      (D.reqAnnee p.m_dateNaissance) = D.dateValide p.m_dateNaissance := rfl
  rw [hd]
  cases b <;> cases empty p.m_nas <;> cases empty p.m_prenom <;> cases empty p.m_nom <;>
    cases empty p.m_adresse <;> cases D.dateValide p.m_dateNaissance <;> simp

/-- The constructor of the debug build returns objects that satisfy the invariant. -/
theorem invariant_constructeur {Date : Type} (f : String) (D : DateOps Date)
    (nas prenom nom adresse : String) (d : Date) (p : Personne Date)
    (hp : Personne.constructeur (Build.debug f) D nas prenom nom adresse d = Except.ok p) :
    InvariantPersonne D p := by
  obtain ⟨b, hb⟩ := validerNas_total nas
  have hp2 := constructeur_ok _ D nas prenom nom adresse d p hp
  subst hp2
  rw [constructeur_debug, hb] at hp
  unfold InvariantPersonne
  rw [← empty_false_iff, ← empty_false_iff, ← empty_false_iff, ← empty_false_iff]
  change _ ∧ _ ∧ _ ∧ _ ∧ _ ∧ D.dateValide d = true
  simp only [hb]
  revert hp
  cases b <;> cases empty nas <;> cases empty prenom <;> cases empty nom <;>
    cases empty adresse <;> cases D.dateValide d <;> cases D.operator_eq d d <;> simp

/-- One call of `asgAdresse` keeps the invariant, in every build, whatever the override of
`verifieInvariant` and however the call ends. -/
theorem invariant_asgAdresse {Date : Type} (B : Build) (D : DateOps Date)
    (verifieInvariant : Personne Date → Except Echec Unit × String) (p : Personne Date)
    (a : String) (hp : InvariantPersonne D p) (hB : B.ndebug = false) :
    InvariantPersonne D (Personne.asgAdresse B verifieInvariant p a).objet := by
  by_cases ha : a = ""
  · subst ha
    obtain ⟨n, f⟩ := B
    simp only at hB
    subst hB
    exact hp
  · rw [asgAdresse_objet B verifieInvariant p a ha]
    obtain ⟨h1, h2, h3, h4, -, h6⟩ := hp
    exact ⟨h1, h2, h3, h4, ha, h6⟩

/-- The digit sum of the statements is the sum of the list of decimal digits. -/
theorem sommeChiffresAux_digits (carburant : Nat) :
    ∀ n : Nat, n < carburant → sommeChiffresAux carburant n = (Nat.digits 10 n).sum := by
  induction carburant with
  | zero => intro n h; omega
  | succ k ih =>
    intro n h
    unfold sommeChiffresAux
    by_cases h0 : n = 0
    · simp [h0]
    · have hpos : 0 < n := Nat.pos_of_ne_zero h0
      rw [if_neg h0, Nat.digits_def' (by norm_num) hpos, List.sum_cons, ih (n / 10) (by omega)]

theorem sommeChiffres_digits (n : Nat) : sommeChiffres n = (Nat.digits 10 n).sum :=
  sommeChiffresAux_digits (n + 1) n (Nat.lt_succ_self n)

/-- On the products of a digit by 1 or 2 the reduction of the code is the digit sum. -/
theorem reduit_sommeChiffres (d : Nat) (hd : d < 10) :
    reduit (d * 1) = d ∧ reduit (d * 1) = sommeChiffres (d * 1) ∧
      reduit (d * 2) = sommeChiffres (2 * d) ∧ reduit (d * 2) = sommeChiffres (d * 2) := by
  interval_cases d <;> decide

theorem luhnTotal_neuf (d0 d1 d2 d3 d4 d5 d6 d7 d8 : Nat)
    (h0 : d0 < 10) (h1 : d1 < 10) (h2 : d2 < 10) (h3 : d3 < 10) (h4 : d4 < 10) (h5 : d5 < 10)
    (h6 : d6 < 10) (h7 : d7 < 10) (h8 : d8 < 10) :
    luhnTotal [d0, d1, d2, d3, d4, d5, d6, d7, d8] =
      sommePonderee d0 d1 d2 d3 d4 d5 d6 d7 d8 := by
  have r0 := (reduit_sommeChiffres d0 h0).1
  have r1 := (reduit_sommeChiffres d1 h1).2.2.1
  have r2 := (reduit_sommeChiffres d2 h2).1
  have r3 := (reduit_sommeChiffres d3 h3).2.2.1
  have r4 := (reduit_sommeChiffres d4 h4).1
  have r5 := (reduit_sommeChiffres d5 h5).2.2.1
  have r6 := (reduit_sommeChiffres d6 h6).1
  have r7 := (reduit_sommeChiffres d7 h7).2.2.1
  have r8 := (reduit_sommeChiffres d8 h8).1
  simp only [luhnTotal, List.reverse_cons, List.reverse_nil, List.nil_append, List.cons_append,
    luhnDepuisDroite, sommePonderee, r0, r1, r2, r3, r4, r5, r6, r7, r8]
  omega

/-- On a string of the form DDD DDD DDD, the answer of `validerNas` is the Luhn check of its
digits. -/
theorem validerNas_luhn (s : String) (hs : EstFormeNas s) :
    validerNas s = Except.ok (luhnValide (chiffresDe s)) := by
  obtain ⟨c0, c1, c2, c3, c4, c5, c6, c7, c8, ⟨h0, h1, h2, h3, h4, h5, h6, h7, h8⟩, rfl⟩ := hs
  rw [validerNas_forme c0 c1 c2 c3 c4 c5 c6 c7 c8 h0 h1 h2 h3 h4 h5 h6 h7 h8]
  unfold luhnValide chiffresDe
  rw [sansEspaces_forme c0 c1 c2 c3 c4 c5 c6 c7 c8 h0 h1 h2 h3 h4 h5 h6 h7 h8]
  simp only [List.map_cons, List.map_nil]
  rw [luhnTotal_neuf _ _ _ _ _ _ _ _ _ (estChiffre_valeur c0 h0).2 (estChiffre_valeur c1 h1).2
    (estChiffre_valeur c2 h2).2 (estChiffre_valeur c3 h3).2 (estChiffre_valeur c4 h4).2
    (estChiffre_valeur c5 h5).2 (estChiffre_valeur c6 h6).2 (estChiffre_valeur c7 h7).2
    (estChiffre_valeur c8 h8).2]
  rfl

/-- The answer of `validerNas` on the text of nine digit values. -/
theorem validerNas_chiffres (d0 d1 d2 d3 d4 d5 d6 d7 d8 : Fin 10) :
    validerNas (formeGroupee (chiffre d0) (chiffre d1) (chiffre d2) (chiffre d3) (chiffre d4)
        (chiffre d5) (chiffre d6) (chiffre d7) (chiffre d8)) =
      Except.ok (decide (sommePonderee d0 d1 d2 d3 d4 d5 d6 d7 d8 % 10 = 0)) := by
  have h := validerNas_forme (chiffre d0) (chiffre d1) (chiffre d2) (chiffre d3) (chiffre d4)
    (chiffre d5) (chiffre d6) (chiffre d7) (chiffre d8) (chiffre_spec d0).1 (chiffre_spec d1).1
    (chiffre_spec d2).1 (chiffre_spec d3).1 (chiffre_spec d4).1 (chiffre_spec d5).1
    (chiffre_spec d6).1 (chiffre_spec d7).1 (chiffre_spec d8).1
  simpa only [(chiffre_spec d0).2, (chiffre_spec d1).2, (chiffre_spec d2).2, (chiffre_spec d3).2,
    (chiffre_spec d4).2, (chiffre_spec d5).2, (chiffre_spec d6).2, (chiffre_spec d7).2,
    (chiffre_spec d8).2] using h

/-- A digit character is the character of its value. -/
theorem estChiffre_chiffre (c : Char) (h : estChiffre c) :
    ∃ k : Fin 10, c = chiffre k := by
  obtain ⟨h1, h2⟩ := estChiffre_valeur c h
  refine ⟨⟨c.toNat - 48, h2⟩, ?_⟩
  unfold chiffre
  simp only
  rw [← h1]
  exact (Char.ofNat_toNat c).symm

/-- The reduced products of distinct digits differ, under either weight, and stay below ten. -/
theorem reduit_injectif : ∀ a b : Fin 10, a ≠ b →
    reduit (a * 1) ≠ reduit (b * 1) ∧ reduit (a * 2) ≠ reduit (b * 2) ∧
      reduit (a * 1) ≤ 9 ∧ reduit (a * 2) ≤ 9 ∧ reduit (b * 1) ≤ 9 ∧ reduit (b * 2) ≤ 9 := by
  decide

/-- An accepted string is the text of nine digit values. -/
theorem accepte_nasDe (s : String) (hs : validerNas s = Except.ok true) :
    ∃ d : Fin 9 → Fin 10, s = nasDe d := by
  have hr : regex_match s nasPattern = true := by
    by_contra h
    rw [validerNas_hors_forme s (by simpa using h)] at hs
    exact absurd hs (by decide)
  obtain ⟨c0, c1, c2, c3, c4, c5, c6, c7, c8, ⟨h0, h1, h2, h3, h4, h5, h6, h7, h8⟩, rfl⟩ :=
    regex_match_estForme s hr
  obtain ⟨k0, rfl⟩ := estChiffre_chiffre c0 h0
  obtain ⟨k1, rfl⟩ := estChiffre_chiffre c1 h1
  obtain ⟨k2, rfl⟩ := estChiffre_chiffre c2 h2
  obtain ⟨k3, rfl⟩ := estChiffre_chiffre c3 h3
  obtain ⟨k4, rfl⟩ := estChiffre_chiffre c4 h4
  obtain ⟨k5, rfl⟩ := estChiffre_chiffre c5 h5
  obtain ⟨k6, rfl⟩ := estChiffre_chiffre c6 h6
  obtain ⟨k7, rfl⟩ := estChiffre_chiffre c7 h7
  obtain ⟨k8, rfl⟩ := estChiffre_chiffre c8 h8
  exact ⟨![k0, k1, k2, k3, k4, k5, k6, k7, k8], rfl⟩

/-- Replacing one digit of an accepted text by another digit gives a rejected text. -/
theorem erreur_un_chiffre (d : Fin 9 → Fin 10) (i : Fin 9) (x : Fin 10) (hx : x ≠ d i)
    (hd : validerNas (nasDe d) = Except.ok true) :
    validerNas (nasDe (Function.update d i x)) = Except.ok false := by
  unfold nasDe at hd ⊢
  rw [validerNas_chiffres] at hd ⊢
  have hS : sommePonderee (d 0) (d 1) (d 2) (d 3) (d 4) (d 5) (d 6) (d 7) (d 8) % 10 = 0 := by
    simpa using hd
  suffices h : ¬ (sommePonderee (Function.update d i x 0) (Function.update d i x 1)
      (Function.update d i x 2) (Function.update d i x 3) (Function.update d i x 4)
      (Function.update d i x 5) (Function.update d i x 6) (Function.update d i x 7)
      (Function.update d i x 8) % 10 = 0) by
    simp [h]
  unfold sommePonderee at hS ⊢
  simp only [Nat.mul_one] at hS ⊢
  fin_cases i <;> simp [Function.update] at hx ⊢ <;>
    have hinj := reduit_injectif x _ hx <;> simp only [Nat.mul_one] at hinj <;> omega

/-! ## The statements of the specification -/

/-- C1: on every text `d0d1d2 d3d4d5 d6d7d8` made of nine decimal digits, `validerNas` returns
true exactly when the sum of the reduced products `r(d_i * w_i)`, with the weights
1,2,1,2,1,2,1,2,1 and `r(p) = p - 9` from ten on, is divisible by 10.  On "046 454 286" the sum
is 50 and the answer true, on "123 456 789" the sum is 47 and the answer false. -/
theorem C1_validerNas_somme_ponderee :
    (∀ d0 d1 d2 d3 d4 d5 d6 d7 d8 : Fin 10,
      validerNas (formeGroupee (chiffre d0) (chiffre d1) (chiffre d2) (chiffre d3) (chiffre d4)
          (chiffre d5) (chiffre d6) (chiffre d7) (chiffre d8)) =
        Except.ok (decide (sommePonderee d0 d1 d2 d3 d4 d5 d6 d7 d8 % 10 = 0))) ∧
    (validerNas "046 454 286" = Except.ok true ∧ sommeNas "046 454 286" = Except.ok 50 ∧
      sommePonderee 0 4 6 4 5 4 2 8 6 = 50) ∧
    (validerNas "123 456 789" = Except.ok false ∧ sommeNas "123 456 789" = Except.ok 47 ∧
      sommePonderee 1 2 3 4 5 6 7 8 9 = 47) := by
  refine ⟨?_, ⟨rfl, rfl, rfl⟩, ⟨rfl, rfl, rfl⟩⟩
  intro d0 d1 d2 d3 d4 d5 d6 d7 d8
  have h := validerNas_forme (chiffre d0) (chiffre d1) (chiffre d2) (chiffre d3) (chiffre d4)
    (chiffre d5) (chiffre d6) (chiffre d7) (chiffre d8) (chiffre_spec d0).1 (chiffre_spec d1).1
    (chiffre_spec d2).1 (chiffre_spec d3).1 (chiffre_spec d4).1 (chiffre_spec d5).1
    (chiffre_spec d6).1 (chiffre_spec d7).1 (chiffre_spec d8).1
  simpa only [(chiffre_spec d0).2, (chiffre_spec d1).2, (chiffre_spec d2).2, (chiffre_spec d3).2,
    (chiffre_spec d4).2, (chiffre_spec d5).2, (chiffre_spec d6).2, (chiffre_spec d7).2,
    (chiffre_spec d8).2] using h

/-- C2: on every string that is not of the form DDD DDD DDD, `validerNas` returns false; so it
does on the empty string, with a character added in front or behind, with another separator or
a doubled space, and on nine digits without spaces (each time around digits whose sum passes). -/
theorem C2_validerNas_hors_forme :
    (∀ s : String, ¬ EstFormeNas s → validerNas s = Except.ok false) ∧
    validerNas "" = Except.ok false ∧
    validerNas " 046 454 286" = Except.ok false ∧
    validerNas "046 454 286 " = Except.ok false ∧
    validerNas "046 454 286\n" = Except.ok false ∧
    validerNas "046-454-286" = Except.ok false ∧
    validerNas "046  454 286" = Except.ok false ∧
    validerNas "046454286" = Except.ok false := by
  refine ⟨?_, rfl, rfl, rfl, rfl, rfl, rfl, rfl⟩
  intro s hs
  apply validerNas_hors_forme
  by_contra h
  exact hs (regex_match_estForme s (by simpa using h))

/-- Instance of C2 on nine digits without spaces. -/
theorem C2_validerNas_hors_forme_witness :
    ¬ EstFormeNas "046454286" ∧ validerNas "046454286" = Except.ok false := by
  have hn : ¬ EstFormeNas "046454286" := by
    rintro ⟨c0, c1, c2, c3, c4, c5, c6, c7, c8, -, h⟩
    have := congrArg String.length h
    simp only [formeGroupee, String.length, List.length] at this
    exact absurd this (by decide)
  exact ⟨hn, C2_validerNas_hors_forme.1 _ hn⟩

/-- C10: `validerNas` returns a boolean on every string, without an access outside the vector
`multiplicateur`.  When the pattern matches, the string freed of its spaces has nine
characters, all decimal digits, so that `char - '0'` lies between 0 and 9, every index of the
loop is below 9, and the loop ends with a sum. -/
theorem C10_validerNas_totale :
    (∀ s : String, ∃ b : Bool, validerNas s = Except.ok b) ∧
    (∀ s : String, regex_match s nasPattern = true →
      (sansEspaces s).length = 9 ∧
      (∀ c ∈ sansEspaces s, estChiffre c ∧
        0 ≤ (c.toNat : Int) - (('0').toNat : Int) ∧ (c.toNat : Int) - (('0').toNat : Int) ≤ 9) ∧
      (∀ i : Nat, i < (sansEspaces s).length →
        i < 9 ∧ i < multiplicateur.length ∧ ∃ m, multiplicateur.get? i = some m) ∧
      ∃ somme : Int, sommeNas s = Except.ok somme) := by
  refine ⟨validerNas_total, ?_⟩
  intro s h
  obtain ⟨c0, c1, c2, c3, c4, c5, c6, c7, c8, ⟨h0, h1, h2, h3, h4, h5, h6, h7, h8⟩, rfl⟩ :=
    regex_match_estForme s h
  have hs := sansEspaces_forme c0 c1 c2 c3 c4 c5 c6 c7 c8 h0 h1 h2 h3 h4 h5 h6 h7 h8
  have e : (('0').toNat : Int) = 48 := by decide
  have hd : ∀ c, estChiffre c → estChiffre c ∧
      0 ≤ (c.toNat : Int) - (('0').toNat : Int) ∧ (c.toNat : Int) - (('0').toNat : Int) ≤ 9 := by
    intro c hc
    refine ⟨hc, ?_⟩
    unfold estChiffre at hc
    rw [e]
    omega
  refine ⟨by rw [hs]; rfl, ?_, ?_, ?_⟩
  · intro c hc
    rw [hs] at hc
    simp only [List.mem_cons, List.mem_singleton, List.not_mem_nil, or_false] at hc
    rcases hc with rfl | rfl | rfl | rfl | rfl | rfl | rfl | rfl | rfl <;> apply hd <;> assumption
  · intro i hi
    rw [hs] at hi
    have hi9 : i < 9 := by simpa using hi
    refine ⟨hi9, by simpa [multiplicateur] using hi9, ?_⟩
    have : i < multiplicateur.length := by simpa [multiplicateur] using hi9
    exact ⟨multiplicateur.get ⟨i, this⟩, List.get?_eq_get this⟩
  · unfold sommeNas
    rw [hs]
    exact ⟨_, sommeNas_liste c0 c1 c2 c3 c4 c5 c6 c7 c8 _ _ _ _ _ _ _ _ _
      (estChiffre_valeur c0 h0).1 (estChiffre_valeur c1 h1).1 (estChiffre_valeur c2 h2).1
      (estChiffre_valeur c3 h3).1 (estChiffre_valeur c4 h4).1 (estChiffre_valeur c5 h5).1
      (estChiffre_valeur c6 h6).1 (estChiffre_valeur c7 h7).1 (estChiffre_valeur c8 h8).1⟩

/-- Instance of C10 on the id 046 454 286. -/
theorem C10_validerNas_totale_witness :
    regex_match "046 454 286" nasPattern = true ∧ (sansEspaces "046 454 286").length = 9 ∧
    ∃ b : Bool, validerNas "046 454 286" = Except.ok b :=
  ⟨rfl, (C10_validerNas_totale.2 "046 454 286" rfl).1, C10_validerNas_totale.1 "046 454 286"⟩

/-- C3: in the debug build the constructor of `Personne` ends with a `PreconditionException`
exactly when the id is empty, or `validerNas` rejects it, or the first name is empty, or the
address is empty, or `Date::validerDate` rejects the components of the date.  So it does for
an empty first name, and for the well-formed id "123 456 789" whose sum fails. -/
theorem C3_constructeur_precondition {Date : Type} (f : String) (D : DateOps Date) :
    (∀ (nas prenom nom adresse : String) (d : Date),
      (∃ e : ContratException,
          Personne.constructeur (Build.debug f) D nas prenom nom adresse d =
            Except.error (Echec.contrat e) ∧ e.genre = Genre.precondition) ↔
        (nas = "" ∨ validerNas nas = Except.ok false ∨ prenom = "" ∨ adresse = "" ∨
          D.validerDate (D.reqJour d) (D.reqMois d) (D.reqAnnee d) = false)) ∧
    (∀ (nas nom adresse : String) (d : Date), ∃ e : ContratException,
      Personne.constructeur (Build.debug f) D nas "" nom adresse d =
        Except.error (Echec.contrat e) ∧ e.genre = Genre.precondition) ∧
    (regex_match "123 456 789" nasPattern = true ∧
      ∀ (prenom nom adresse : String) (d : Date), ∃ e : ContratException,
        Personne.constructeur (Build.debug f) D "123 456 789" prenom nom adresse d =
          Except.error (Echec.contrat e) ∧ e.genre = Genre.precondition) := by
  have key : ∀ (nas prenom nom adresse : String) (d : Date),
      (∃ e : ContratException,
          Personne.constructeur (Build.debug f) D nas prenom nom adresse d =
            Except.error (Echec.contrat e) ∧ e.genre = Genre.precondition) ↔
        (nas = "" ∨ validerNas nas = Except.ok false ∨ prenom = "" ∨ adresse = "" ∨
          D.validerDate (D.reqJour d) (D.reqMois d) (D.reqAnnee d) = false) := by
    intro nas prenom nom adresse d
    obtain ⟨b, hb⟩ := validerNas_total nas
    rw [constructeur_debug, hb, ← empty_iff, ← empty_iff, ← empty_iff]
    change _ ↔ (_ ∨ _ ∨ _ ∨ _ ∨ D.dateValide d = false)
    cases b <;> cases empty nas <;> cases empty prenom <;> cases empty nom <;>
      cases empty adresse <;> cases D.dateValide d <;> cases D.operator_eq d d <;>
      simp [PreconditionException, PostconditionException, InvariantException]
  refine ⟨key, ?_, rfl, ?_⟩
  · intro nas nom adresse d
    exact (key nas "" nom adresse d).mpr (Or.inr (Or.inr (Or.inl rfl)))
  · intro prenom nom adresse d
    exact (key "123 456 789" prenom nom adresse d).mpr (Or.inr (Or.inl rfl))

/-- C4: in the debug build, when `validerNas` accepts the id, the first name, the last name and
the address are not empty and the date is valid, the constructor returns normally and the five
accessors give back the five arguments.  `Date::operator==`, which the last postcondition
calls, is taken to hold between the date and itself. -/
theorem C4_constructeur_reussit {Date : Type} (f : String) (D : DateOps Date)
    (nas prenom nom adresse : String) (d : Date)
    (hnas : validerNas nas = Except.ok true) (hprenom : prenom ≠ "") (hnom : nom ≠ "")
    (hadresse : adresse ≠ "")
    (hdate : D.validerDate (D.reqJour d) (D.reqMois d) (D.reqAnnee d) = true)
    (hegal : D.operator_eq d d = true) :
    ∃ p : Personne Date,
      Personne.constructeur (Build.debug f) D nas prenom nom adresse d = Except.ok p ∧
      p.reqNas = nas ∧ p.reqPrenom = prenom ∧ p.reqNom = nom ∧ p.reqAdresse = adresse ∧
      p.reqDateNaissance = d := by
  have h1 : empty nas = false := by
    cases h : empty nas
    · rfl
    · rw [(empty_iff nas).mp h] at hnas
      exact absurd hnas (by decide)
  have h2 : empty prenom = false := by
    cases h : empty prenom
    · rfl
    · exact absurd ((empty_iff prenom).mp h) hprenom
  have h3 : empty nom = false := by
    cases h : empty nom
    · rfl
    · exact absurd ((empty_iff nom).mp h) hnom
  have h4 : empty adresse = false := by
    cases h : empty adresse
    · rfl
    · exact absurd ((empty_iff adresse).mp h) hadresse
  have h5 : D.dateValide d = true := hdate
  refine ⟨Personne.mk nas prenom nom adresse d, ?_, rfl, rfl, rfl, rfl, rfl⟩
  rw [constructeur_debug]
  simp [h1, h2, h3, h4, h5, hnas, hegal]

/-- Instance of C4 with the stand-in date type. -/
theorem C4_constructeur_reussit_witness :
    ∃ p : Personne (Int × Int × Int),
      Personne.constructeur (Build.debug "Personne.cpp") dateTriplet "046 454 286" "Jeanne"
        "Tremblay" "1 rue Principale" (15, 6, 1990) = Except.ok p ∧
      p.reqNas = "046 454 286" ∧ p.reqPrenom = "Jeanne" ∧ p.reqNom = "Tremblay" ∧
      p.reqAdresse = "1 rue Principale" ∧ p.reqDateNaissance = (15, 6, 1990) :=
  C4_constructeur_reussit "Personne.cpp" dateTriplet "046 454 286" "Jeanne" "Tremblay"
    "1 rue Principale" (15, 6, 1990) rfl (by decide) (by decide) (by decide) rfl rfl

/-- C5: in the debug build `asgAdresse("")` ends with a `PreconditionException` and leaves the
object as it was, whatever its state and its dynamic class: every accessor returns what it
returned before. -/
theorem C5_asgAdresse_vide {Date : Type} (f : String)
    (verifieInvariant : Personne Date → Except Echec Unit × String) (p : Personne Date) :
    (∃ e : ContratException,
      (Personne.asgAdresse (Build.debug f) verifieInvariant p "").issue =
        Except.error (Echec.contrat e) ∧ e.genre = Genre.precondition) ∧
    (Personne.asgAdresse (Build.debug f) verifieInvariant p "").objet = p ∧
    (Personne.asgAdresse (Build.debug f) verifieInvariant p "").objet.reqAdresse = p.reqAdresse ∧
    (Personne.asgAdresse (Build.debug f) verifieInvariant p "").objet.reqNas = p.reqNas ∧
    (Personne.asgAdresse (Build.debug f) verifieInvariant p "").objet.reqPrenom = p.reqPrenom ∧
    (Personne.asgAdresse (Build.debug f) verifieInvariant p "").objet.reqNom = p.reqNom ∧
    (Personne.asgAdresse (Build.debug f) verifieInvariant p "").objet.reqDateNaissance =
      p.reqDateNaissance := by
  have h : Personne.asgAdresse (Build.debug f) verifieInvariant p "" =
      { issue := Except.error (Echec.contrat
          (PreconditionException f 53 "!p_nouvelleAdresse.empty()")),
        objet := p, cout := "" } := rfl
  rw [h]
  exact ⟨⟨_, rfl, rfl⟩, rfl, rfl, rfl, rfl, rfl, rfl⟩

/-- C6: in the debug build, on a `Personne` that its constructor returned and for a non-empty
address `a`, `asgAdresse(a)` returns normally, `reqAdresse` then gives `a`, and the four other
accessors give what they gave before. -/
theorem C6_asgAdresse_reussit {Date : Type} (f : String) (D : DateOps Date)
    (nas prenom nom adresse : String) (d : Date) (p : Personne Date)
    (hp : Personne.constructeur (Build.debug f) D nas prenom nom adresse d = Except.ok p)
    (a : String) (ha : a ≠ "") :
    (asgAdressePersonne (Build.debug f) D p a).issue = Except.ok () ∧
    (asgAdressePersonne (Build.debug f) D p a).objet.reqAdresse = a ∧
    (asgAdressePersonne (Build.debug f) D p a).objet.reqNas = p.reqNas ∧
    (asgAdressePersonne (Build.debug f) D p a).objet.reqPrenom = p.reqPrenom ∧
    (asgAdressePersonne (Build.debug f) D p a).objet.reqNom = p.reqNom ∧
    (asgAdressePersonne (Build.debug f) D p a).objet.reqDateNaissance = p.reqDateNaissance := by
  have h4 : empty a = false := by
    cases h : empty a
    · rfl
    · exact absurd ((empty_iff a).mp h) ha
  obtain ⟨b, hb⟩ := validerNas_total nas
  rw [constructeur_debug, hb] at hp
  have hdbg : (Build.debug f).ndebug = false := rfl
  have hform : asgAdressePersonne (Build.debug f) D p a =
      { issue := Personne.verifieInvariant (Build.debug f) D { p with m_adresse := a },
        objet := { p with m_adresse := a }, cout := "" } := by
    unfold asgAdressePersonne Personne.asgAdresse
    simp [pure, Except.pure, PRECONDITION_debug, POSTCONDITION_debug, h4, INVARIANTS, hdbg]
  rw [hform]
  refine ⟨?_, rfl, rfl, rfl, rfl, rfl⟩
  rw [verifieInvariant_debug]
  revert hp
  cases b <;> cases h1 : empty nas <;> cases h2 : empty prenom <;> cases h3 : empty nom <;>
    cases h5 : empty adresse <;> cases h6 : D.dateValide d <;>
    cases h7 : D.operator_eq d d <;> intro hp <;> simp at hp
  subst hp
  simp [hb, h1, h2, h3, h4, h6]

/-- Instance of C6 with the address 123 New St. -/
theorem C6_asgAdresse_reussit_witness :
    (asgAdressePersonne (Build.debug "Personne.cpp") dateTriplet
      (Personne.mk "046 454 286" "Jeanne" "Tremblay" "1 rue Principale" (15, 6, 1990))
      "123 New St").issue = Except.ok () ∧
    (asgAdressePersonne (Build.debug "Personne.cpp") dateTriplet
      (Personne.mk "046 454 286" "Jeanne" "Tremblay" "1 rue Principale" (15, 6, 1990))
      "123 New St").objet.reqAdresse = "123 New St" :=
  have h := C6_asgAdresse_reussit "Personne.cpp" dateTriplet "046 454 286" "Jeanne" "Tremblay"
    "1 rue Principale" (15, 6, 1990)
    (Personne.mk "046 454 286" "Jeanne" "Tremblay" "1 rue Principale" (15, 6, 1990)) rfl
    "123 New St" (by decide)
  ⟨h.1, h.2.1⟩

/-- C7: `p == q` holds exactly when the four strings are equal and `Date::operator==` holds
between the two dates.  Hence two objects built from the same arguments compare equal (the
date comparing equal to itself), and after `asgAdresse(a)` on one of them, with `a` non-empty
and different from the address of the other, they compare unequal. -/
theorem C7_operator_eq {Date : Type} (D : DateOps Date) :
    (∀ p q : Personne Date,
      Personne.operator_eq D p q = true ↔
        (p.m_nas = q.m_nas ∧ p.m_prenom = q.m_prenom ∧ p.m_nom = q.m_nom ∧
          p.m_adresse = q.m_adresse ∧
          D.operator_eq p.m_dateNaissance q.m_dateNaissance = true)) ∧
    (∀ (B : Build) (nas prenom nom adresse : String) (d : Date) (p q : Personne Date),
      Personne.constructeur B D nas prenom nom adresse d = Except.ok p →
      Personne.constructeur B D nas prenom nom adresse d = Except.ok q →
      D.operator_eq d d = true →
      Personne.operator_eq D p q = true) ∧
    (∀ (B : Build) (verifieInvariant : Personne Date → Except Echec Unit × String)
      (p q : Personne Date) (a : String),
      a ≠ "" → a ≠ q.m_adresse →
      Personne.operator_eq D (Personne.asgAdresse B verifieInvariant p a).objet q = false) := by
  have key : ∀ p q : Personne Date,
      Personne.operator_eq D p q = true ↔
        (p.m_nas = q.m_nas ∧ p.m_prenom = q.m_prenom ∧ p.m_nom = q.m_nom ∧
          p.m_adresse = q.m_adresse ∧
          D.operator_eq p.m_dateNaissance q.m_dateNaissance = true) := by
    intro p q
    unfold Personne.operator_eq
    simp only [Bool.and_eq_true, beq_iff_eq]
    tauto
  refine ⟨key, ?_, ?_⟩
  · intro B nas prenom nom adresse d p q hp hq hd
    rw [constructeur_ok B D nas prenom nom adresse d p hp,
      constructeur_ok B D nas prenom nom adresse d q hq]
    exact (key _ _).mpr ⟨rfl, rfl, rfl, rfl, hd⟩
  · intro B verifieInvariant p q a ha hne
    rw [asgAdresse_objet B verifieInvariant p a ha]
    cases h : Personne.operator_eq D { p with m_adresse := a } q
    · rfl
    · exact absurd ((key _ _).mp h).2.2.2.1 hne

/-- Instance of C7 with the stand-in date type. -/
theorem C7_operator_eq_witness :
    Personne.operator_eq dateTriplet
      (Personne.mk "046 454 286" "Jeanne" "Tremblay" "1 rue Principale" (15, 6, 1990))
      (Personne.mk "046 454 286" "Jeanne" "Tremblay" "1 rue Principale" (15, 6, 1990)) = true ∧
    Personne.operator_eq dateTriplet
      (asgAdressePersonne (Build.debug "Personne.cpp") dateTriplet
        (Personne.mk "046 454 286" "Jeanne" "Tremblay" "1 rue Principale" (15, 6, 1990))
        "123 New St").objet
      (Personne.mk "046 454 286" "Jeanne" "Tremblay" "1 rue Principale" (15, 6, 1990)) = false :=
  ⟨(C7_operator_eq dateTriplet).2.1 (Build.debug "Personne.cpp") "046 454 286" "Jeanne"
      "Tremblay" "1 rue Principale" (15, 6, 1990) _ _ rfl rfl rfl,
    (C7_operator_eq dateTriplet).2.2 (Build.debug "Personne.cpp") _
      (Personne.mk "046 454 286" "Jeanne" "Tremblay" "1 rue Principale" (15, 6, 1990))
      (Personne.mk "046 454 286" "Jeanne" "Tremblay" "1 rue Principale" (15, 6, 1990))
      "123 New St" (by decide) (by decide)⟩

/-- C8: `reqPersonneFormate` is the five lines, each ended by a line break, made of the labels
NAS, Prenom, Nom, Date de naissance, Adresse in this order, each followed by its value, the date
through `reqDateFormatee`; two objects with the same five values give the same text; and when
no value holds a line break the text has five line breaks. -/
theorem C8_reqPersonneFormate {Date : Type} (D : DateOps Date) :
    (∀ p : Personne Date,
      Personne.reqPersonneFormate D p =
        String.join (List.map (fun ligne => ligne ++ "\n")
          ["NAS               : " ++ p.reqNas,
           "Prenom            : " ++ p.reqPrenom,
           "Nom               : " ++ p.reqNom,
           "Date de naissance : " ++ D.reqDateFormatee p.reqDateNaissance,
           "Adresse           : " ++ p.reqAdresse])) ∧
    (∀ p q : Personne Date,
      p.reqNas = q.reqNas → p.reqPrenom = q.reqPrenom → p.reqNom = q.reqNom →
      D.reqDateFormatee p.reqDateNaissance = D.reqDateFormatee q.reqDateNaissance →
      p.reqAdresse = q.reqAdresse →
      Personne.reqPersonneFormate D p = Personne.reqPersonneFormate D q) ∧
    (∀ p : Personne Date,
      '\n' ∉ p.reqNas.data → '\n' ∉ p.reqPrenom.data → '\n' ∉ p.reqNom.data →
      '\n' ∉ (D.reqDateFormatee p.reqDateNaissance).data → '\n' ∉ p.reqAdresse.data →
      (Personne.reqPersonneFormate D p).data.count '\n' = 5) := by
  refine ⟨?_, ?_, reqPersonneFormate_sauts D⟩
  · intro p
    apply String.ext
    simp [Personne.reqPersonneFormate, endl, String.join, Personne.reqDateNaissance]
  · intro p q h1 h2 h3 h4 h5
    unfold Personne.reqPersonneFormate
    unfold Personne.reqDateNaissance at h4
    rw [h1, h2, h3, h4, h5]

/-- Instance of C8 with the stand-in date type. -/
theorem C8_reqPersonneFormate_witness :
    Personne.reqPersonneFormate dateTriplet
        (Personne.mk "046 454 286" "Jeanne" "Tremblay" "1 rue Principale" (15, 6, 1990)) =
      Personne.reqPersonneFormate dateTriplet
        (Personne.mk "046 454 286" "Jeanne" "Tremblay" "1 rue Principale" (15, 6, 1990)) ∧
    (Personne.reqPersonneFormate dateTriplet
        (Personne.mk "046 454 286" "Jeanne" "Tremblay" "1 rue Principale"
          (15, 6, 1990))).data.count '\n' = 5 ∧
    Personne.reqPersonneFormate dateTriplet
        (Personne.mk "046 454 286" "Jeanne" "Tremblay" "1 rue Principale" (15, 6, 1990)) =
      "NAS               : 046 454 286\nPrenom            : Jeanne\nNom               : Tremblay\nDate de naissance : 15/6/1990\nAdresse           : 1 rue Principale\n" :=
  ⟨(C8_reqPersonneFormate dateTriplet).2.1 _ _ rfl rfl rfl rfl rfl,
    (C8_reqPersonneFormate dateTriplet).2.2 _ (by decide) (by decide) (by decide) (by decide)
      (by decide),
    by decide⟩

/-- C9: `Candidat::reqPersonneFormate` is the line "Candidat", a line of 36 dashes, the text of
`Personne::reqPersonneFormate` on the same fields, and one more line break; written out, the
labels come in the order of the base class; the party plays no part in it. -/
theorem C9_candidat_reqPersonneFormate {Date : Type} (D : DateOps Date) :
    (∀ c : Candidat Date,
      Candidat.reqPersonneFormate D c =
        "Candidat\n" ++ (String.mk (List.replicate 36 '-') ++ "\n") ++
          Personne.reqPersonneFormate D c.toPersonne ++ "\n") ∧
    (∀ c : Candidat Date,
      Candidat.reqPersonneFormate D c =
        String.join (List.map (fun ligne => ligne ++ "\n")
          ["Candidat",
           String.mk (List.replicate 36 '-'),
           "NAS               : " ++ c.reqNas,
           "Prenom            : " ++ c.reqPrenom,
           "Nom               : " ++ c.reqNom,
           "Date de naissance : " ++ D.reqDateFormatee c.reqDateNaissance,
           "Adresse           : " ++ c.reqAdresse,
           ""])) ∧
    (∀ (p : Personne Date) (parti1 parti2 : PartisPolitiques),
      Candidat.reqPersonneFormate D (Candidat.mk p parti1) =
        Candidat.reqPersonneFormate D (Candidat.mk p parti2)) := by
  have tirets : "------------------------------------" = String.mk (List.replicate 36 '-') := by
    decide
  refine ⟨?_, ?_, fun _ _ _ => rfl⟩
  · intro c
    unfold Candidat.reqPersonneFormate
    rw [tirets]
    apply String.ext
    simp [endl]
  · intro c
    unfold Candidat.reqPersonneFormate
    rw [tirets]
    apply String.ext
    simp [Personne.reqPersonneFormate, endl, String.join, Personne.reqDateNaissance,
      Personne.reqNas, Personne.reqPrenom, Personne.reqNom, Personne.reqAdresse]

/-- C11: under `NDEBUG` every contract macro expands to nothing, whatever its condition (which
is not evaluated); so the constructor of `Personne` returns normally on all inputs and stores
the five arguments as they are (an empty or rejected id, empty names or address, an invalid
date included), and `asgAdresse(a)` returns normally for every `a`, the empty string included,
and leaves `a` in the address, whatever the dynamic class of the object. -/
theorem C11_ndebug_sans_controle {Date : Type} (f : String) (D : DateOps Date) :
    (∀ (ligne : Nat) (c : Except Echec Bool) (texte : String),
      PRECONDITION (Build.mk true f) ligne c texte = Except.ok () ∧
      POSTCONDITION (Build.mk true f) ligne c texte = Except.ok () ∧
      INVARIANT (Build.mk true f) ligne c texte = Except.ok () ∧
      ASSERTION (Build.mk true f) ligne c texte = Except.ok ()) ∧
    (∀ v : Except Echec Unit × String, INVARIANTS (Build.mk true f) v = (Except.ok (), "")) ∧
    (∀ (nas prenom nom adresse : String) (d : Date),
      ∃ p : Personne Date,
        Personne.constructeur (Build.mk true f) D nas prenom nom adresse d = Except.ok p ∧
        p.reqNas = nas ∧ p.reqPrenom = prenom ∧ p.reqNom = nom ∧ p.reqAdresse = adresse ∧
        p.reqDateNaissance = d) ∧
    (∀ (verifieInvariant : Personne Date → Except Echec Unit × String) (p : Personne Date)
      (a : String),
      (Personne.asgAdresse (Build.mk true f) verifieInvariant p a).issue = Except.ok () ∧
      (Personne.asgAdresse (Build.mk true f) verifieInvariant p a).objet.reqAdresse = a ∧
      (Personne.asgAdresse (Build.mk true f) verifieInvariant p a).objet =
        { p with m_adresse := a }) ∧
    (∀ d : Date,
      Personne.constructeur (Build.mk true f) D "" "" "" "" d =
        Except.ok (Personne.mk "" "" "" "" d) ∧
      Personne.constructeur (Build.mk true f) D "123 456 789" "" "" "" d =
        Except.ok (Personne.mk "123 456 789" "" "" "" d)) := by
  refine ⟨fun _ _ _ => ⟨rfl, rfl, rfl, rfl⟩, fun _ => rfl, ?_, ?_, ?_⟩
  · intro nas prenom nom adresse d
    exact ⟨Personne.mk nas prenom nom adresse d, constructeur_ndebug _ rfl D nas prenom nom adresse d,
      rfl, rfl, rfl, rfl, rfl⟩
  · intro verifieInvariant p a
    exact ⟨rfl, rfl, rfl⟩
  · intro d
    exact ⟨constructeur_ndebug _ rfl D _ _ _ _ d, constructeur_ndebug _ rfl D _ _ _ _ d⟩

/-- C12: the text of `reqTexteException` is four lines, each ended by a line break, in this
order: the label "Message    : " and the message of the exception, "Fichier    : " and the
file, "Ligne      : " and the line number in decimal, "Expression : " and the expression; two
exceptions with the same four values give the same text, whatever their class.  For the
exception of line 84 of Personne.cpp the text is written out. -/
theorem C12_reqTexteException :
    (∀ e : ContratException,
      e.reqTexteException =
        String.join (List.map (fun ligne => ligne ++ "\n")
          ["Message    : " ++ e.what,
           "Fichier    : " ++ e.m_fichier,
           "Ligne      : " ++ toString e.m_ligne,
           "Expression : " ++ e.m_expression])) ∧
    (∀ (g1 g2 : Genre) (m fichier expression : String) (ligne : Nat),
      (ContratException.mk g1 m expression fichier ligne).reqTexteException =
        (ContratException.mk g2 m expression fichier ligne).reqTexteException) ∧
    (InvariantException "Personne.cpp" 84 "!m_nom.empty()").reqTexteException =
      "Message    : ERREUR INVARIANT\nFichier    : Personne.cpp\nLigne      : 84\nExpression : !m_nom.empty()\n" ∧
    (toString (0 : Nat) = "0" ∧ toString (148 : Nat) = "148" ∧
      toString (4294967295 : Nat) = "4294967295") := by
  refine ⟨?_, fun _ _ _ _ _ _ => rfl, by decide, by decide, by decide, by decide⟩
  intro e
  apply String.ext
  simp [ContratException.reqTexteException, endl, String.join]

/-- C13: in the debug build the constructor of `Candidat` ends with an exception exactly when
the constructor of `Personne` does on the same five arguments, and with the same exception;
the invariant that runs is the one of `Personne` (an empty last name stops the construction
of a `Candidat` with an `InvariantException`).  When it returns, the five accessors of
`Personne` give the arguments and `reqPartiPolitique` gives the party, whichever of the five
it is. -/
theorem C13_candidat_constructeur {Date : Type} (f : String) (D : DateOps Date) :
    (∀ (nas prenom nom adresse : String) (d : Date) (parti : PartisPolitiques) (e : Echec),
      Candidat.constructeur (Build.debug f) D nas prenom nom adresse d parti = Except.error e ↔
        Personne.constructeur (Build.debug f) D nas prenom nom adresse d = Except.error e) ∧
    (∀ (nas prenom nom adresse : String) (d : Date) (parti : PartisPolitiques)
      (c : Candidat Date),
      Candidat.constructeur (Build.debug f) D nas prenom nom adresse d parti = Except.ok c ↔
        (Personne.constructeur (Build.debug f) D nas prenom nom adresse d =
            Except.ok c.toPersonne ∧ c.reqPartiPolitique = parti)) ∧
    (∀ (nas prenom nom adresse : String) (d : Date) (parti : PartisPolitiques)
      (c : Candidat Date),
      Candidat.constructeur (Build.debug f) D nas prenom nom adresse d parti = Except.ok c →
        c.reqNas = nas ∧ c.reqPrenom = prenom ∧ c.reqNom = nom ∧ c.reqAdresse = adresse ∧
        c.reqDateNaissance = d ∧ c.reqPartiPolitique = parti) ∧
    (∀ (nas prenom nom adresse : String) (d : Date) (parti : PartisPolitiques),
      validerNas nas = Except.ok true → prenom ≠ "" → nom ≠ "" → adresse ≠ "" →
      D.validerDate (D.reqJour d) (D.reqMois d) (D.reqAnnee d) = true →
      D.operator_eq d d = true →
      Candidat.constructeur (Build.debug f) D nas prenom nom adresse d parti =
        Except.ok (Candidat.mk (Personne.mk nas prenom nom adresse d) parti)) ∧
    (∀ (nas prenom adresse : String) (d : Date) (parti : PartisPolitiques),
      validerNas nas = Except.ok true → prenom ≠ "" → adresse ≠ "" →
      D.validerDate (D.reqJour d) (D.reqMois d) (D.reqAnnee d) = true →
      D.operator_eq d d = true →
      Candidat.constructeur (Build.debug f) D nas prenom "" adresse d parti =
        Except.error (Echec.contrat (InvariantException f 84 "!m_nom.empty()"))) := by
  have forme : ∀ (nas prenom nom adresse : String) (d : Date) (parti : PartisPolitiques),
      Candidat.constructeur (Build.debug f) D nas prenom nom adresse d parti =
        match Personne.constructeur (Build.debug f) D nas prenom nom adresse d with
        | Except.error e => Except.error e
        | Except.ok p => Except.ok (Candidat.mk p parti) := by
    intro nas prenom nom adresse d parti
    unfold Candidat.constructeur
    cases Personne.constructeur (Build.debug f) D nas prenom nom adresse d <;> rfl
  have nonvide : ∀ s : String, s ≠ "" → empty s = false := by
    intro s hs
    cases h : empty s
    · rfl
    · exact absurd ((empty_iff s).mp h) hs
  have nasnonvide : ∀ s : String, validerNas s = Except.ok true → empty s = false := by
    intro s hs
    apply nonvide
    rintro rfl
    exact absurd hs (by decide)
  refine ⟨?_, ?_, ?_, ?_, ?_⟩
  · intro nas prenom nom adresse d parti e
    rw [forme]
    cases Personne.constructeur (Build.debug f) D nas prenom nom adresse d <;> simp
  · intro nas prenom nom adresse d parti c
    rw [forme]
    obtain ⟨p, q⟩ := c
    cases Personne.constructeur (Build.debug f) D nas prenom nom adresse d <;>
      simp [Candidat.reqPartiPolitique, eq_comm]
  · intro nas prenom nom adresse d parti c hc
    rw [forme] at hc
    cases hp : Personne.constructeur (Build.debug f) D nas prenom nom adresse d with
    | error e => rw [hp] at hc; exact absurd hc (by simp)
    | ok p =>
      rw [hp] at hc
      have hc2 : Candidat.mk p parti = c := Except.ok.inj hc
      have hp2 := constructeur_ok _ D nas prenom nom adresse d p hp
      subst hc2
      subst hp2
      exact ⟨rfl, rfl, rfl, rfl, rfl, rfl⟩
  · intro nas prenom nom adresse d parti h1 h2 h3 h4 h5 h6
    have h5b : D.dateValide d = true := h5
    rw [forme, constructeur_debug]
    simp [nasnonvide nas h1, nonvide prenom h2, nonvide nom h3, nonvide adresse h4, h1, h5b, h6]
  · intro nas prenom adresse d parti h1 h2 h4 h5 h6
    have h5b : D.dateValide d = true := h5
    have h3 : empty "" = true := rfl
    rw [forme, constructeur_debug]
    simp [nasnonvide nas h1, nonvide prenom h2, h3, nonvide adresse h4, h1, h5b, h6]

/-- Instance of C13 with the stand-in date type, once for each of the five parties. -/
theorem C13_candidat_constructeur_witness :
    ∀ parti : PartisPolitiques,
      Candidat.constructeur (Build.debug "Personne.cpp") dateTriplet "046 454 286" "Jeanne"
          "Tremblay" "1 rue Principale" (15, 6, 1990) parti =
        Except.ok (Candidat.mk
          (Personne.mk "046 454 286" "Jeanne" "Tremblay" "1 rue Principale" (15, 6, 1990))
          parti) ∧
      Candidat.constructeur (Build.debug "Personne.cpp") dateTriplet "046 454 286" "Jeanne"
          "" "1 rue Principale" (15, 6, 1990) parti =
        Except.error (Echec.contrat (InvariantException "Personne.cpp" 84 "!m_nom.empty()")) :=
  fun parti =>
    ⟨(C13_candidat_constructeur "Personne.cpp" dateTriplet).2.2.2.1 "046 454 286" "Jeanne"
        "Tremblay" "1 rue Principale" (15, 6, 1990) parti rfl (by decide) (by decide)
        (by decide) rfl rfl,
      (C13_candidat_constructeur "Personne.cpp" dateTriplet).2.2.2.2 "046 454 286" "Jeanne"
        "1 rue Principale" (15, 6, 1990) parti rfl (by decide) (by decide) rfl rfl⟩

/-- C14, as stated, fails: none of the four classes carries the English message of the
statement; the message of each class differs from "ASSERTION ERROR", "PRECONDITION ERROR",
"POSTCONDITION ERROR" and "INVARIANT ERROR" respectively. -/
theorem C14_messages_anglais_refute :
    (AssertionException "Personne.cpp" 14 "!p_nas.empty()").what ≠ "ASSERTION ERROR" ∧
    (PreconditionException "Personne.cpp" 14 "!p_nas.empty()").what ≠ "PRECONDITION ERROR" ∧
    (PostconditionException "Personne.cpp" 14 "!p_nas.empty()").what ≠ "POSTCONDITION ERROR" ∧
    (InvariantException "Personne.cpp" 14 "!p_nas.empty()").what ≠ "INVARIANT ERROR" := by
  decide

/-- C14, amended: the four classes carry the fixed messages "ERREUR ASSERTION",
"ERREUR PRECONDITION", "ERREUR POSTCONDITION" and "ERREUR INVARIANT", whatever the file, the
line and the expression; it is the text of `what()` and the one shown on the message line of
`reqTexteException`, and each class of exception is the one its macro throws in the debug
build. -/
theorem C14_messages_francais (fichier : String) (ligne : Nat) (expression : String) :
    ((AssertionException fichier ligne expression).what = "ERREUR ASSERTION" ∧
      (PreconditionException fichier ligne expression).what = "ERREUR PRECONDITION" ∧
      (PostconditionException fichier ligne expression).what = "ERREUR POSTCONDITION" ∧
      (InvariantException fichier ligne expression).what = "ERREUR INVARIANT") ∧
    ((AssertionException fichier ligne expression).genre = Genre.assertion ∧
      (PreconditionException fichier ligne expression).genre = Genre.precondition ∧
      (PostconditionException fichier ligne expression).genre = Genre.postcondition ∧
      (InvariantException fichier ligne expression).genre = Genre.invariant) ∧
    (∃ reste : String, (AssertionException fichier ligne expression).reqTexteException =
        "Message    : ERREUR ASSERTION\n" ++ reste) ∧
    (∃ reste : String, (PreconditionException fichier ligne expression).reqTexteException =
        "Message    : ERREUR PRECONDITION\n" ++ reste) ∧
    (∃ reste : String, (PostconditionException fichier ligne expression).reqTexteException =
        "Message    : ERREUR POSTCONDITION\n" ++ reste) ∧
    (∃ reste : String, (InvariantException fichier ligne expression).reqTexteException =
        "Message    : ERREUR INVARIANT\n" ++ reste) ∧
    (ASSERTION (Build.debug fichier) ligne (Except.ok false) expression =
        Except.error (Echec.contrat (AssertionException fichier ligne expression)) ∧
      PRECONDITION (Build.debug fichier) ligne (Except.ok false) expression =
        Except.error (Echec.contrat (PreconditionException fichier ligne expression)) ∧
      POSTCONDITION (Build.debug fichier) ligne (Except.ok false) expression =
        Except.error (Echec.contrat (PostconditionException fichier ligne expression)) ∧
      INVARIANT (Build.debug fichier) ligne (Except.ok false) expression =
        Except.error (Echec.contrat (InvariantException fichier ligne expression))) := by
  have texte : ∀ e : ContratException, e.reqTexteException =
      ("Message    : " ++ e.what ++ "\n") ++
        ("Fichier    : " ++ e.m_fichier ++ "\n" ++ "Ligne      : " ++ toString e.m_ligne ++ "\n" ++
          "Expression : " ++ e.m_expression ++ "\n") := by
    intro e
    apply String.ext
    simp [ContratException.reqTexteException, endl]
  refine ⟨⟨rfl, rfl, rfl, rfl⟩, ⟨rfl, rfl, rfl, rfl⟩, ⟨_, texte _⟩, ⟨_, texte _⟩, ⟨_, texte _⟩,
    ⟨_, texte _⟩, ⟨rfl, rfl, rfl, rfl⟩⟩

/-- C15: in the debug build the class invariant holds in every reachable state: after a
construction that returned and any finite sequence of calls `asgAdresse`, each left normally
or by an exception, the object satisfies `validerNas(nas)`, a non-empty id, first name, last
name and address, and a valid date (which is what `Personne::verifieInvariant` checks).  It
holds for a `Candidat` as well, although `Candidat::verifieInvariant`, the override that
`asgAdresse` calls on it, always returns normally. -/
theorem C15_invariant_atteignable {Date : Type} (f : String) (D : DateOps Date) :
    (∀ (nas prenom nom adresse : String) (d : Date) (p : Personne Date) (appels : List String),
      Personne.constructeur (Build.debug f) D nas prenom nom adresse d = Except.ok p →
      InvariantPersonne D (suitePersonne (Build.debug f) D p appels) ∧
      Personne.verifieInvariant (Build.debug f) D (suitePersonne (Build.debug f) D p appels) =
        Except.ok ()) ∧
    (∀ (nas prenom nom adresse : String) (d : Date) (parti : PartisPolitiques)
      (c : Candidat Date) (appels : List String),
      Candidat.constructeur (Build.debug f) D nas prenom nom adresse d parti = Except.ok c →
      InvariantPersonne D (suiteCandidat (Build.debug f) c appels).toPersonne ∧
      Personne.verifieInvariant (Build.debug f) D
        (suiteCandidat (Build.debug f) c appels).toPersonne = Except.ok ()) ∧
    (∀ c : Candidat Date, (Candidat.verifieInvariant c).1 = Except.ok ()) := by
  have suiteP : ∀ (appels : List String) (p : Personne Date), InvariantPersonne D p →
      InvariantPersonne D (suitePersonne (Build.debug f) D p appels) := by
    intro appels
    induction appels with
    | nil => intro p hp; exact hp
    | cons a reste ih =>
      intro p hp
      exact ih _ (invariant_asgAdresse (Build.debug f) D _ p a hp rfl)
  have suiteC : ∀ (appels : List String) (c : Candidat Date), InvariantPersonne D c.toPersonne →
      InvariantPersonne D (suiteCandidat (Build.debug f) c appels).toPersonne := by
    intro appels
    induction appels with
    | nil => intro c hc; exact hc
    | cons a reste ih =>
      intro c hc
      exact ih _ (invariant_asgAdresse (Build.debug f) D _ c.toPersonne a hc rfl)
  refine ⟨?_, ?_, fun _ => rfl⟩
  · intro nas prenom nom adresse d p appels hp
    have h := suiteP appels p (invariant_constructeur f D nas prenom nom adresse d p hp)
    exact ⟨h, (invariant_iff_verifie f D _).mp h⟩
  · intro nas prenom nom adresse d parti c appels hc
    have hp : Personne.constructeur (Build.debug f) D nas prenom nom adresse d =
        Except.ok c.toPersonne := by
      unfold Candidat.constructeur at hc
      cases hq : Personne.constructeur (Build.debug f) D nas prenom nom adresse d with
      | error e => rw [hq] at hc; exact absurd hc (by simp [bind, Except.bind])
      | ok q =>
        rw [hq] at hc
        have : Candidat.mk q parti = c := Except.ok.inj hc
        rw [← this]
    have h := suiteC appels c (invariant_constructeur f D nas prenom nom adresse d _ hp)
    exact ⟨h, (invariant_iff_verifie f D _).mp h⟩

/-- Instance of C15 with the stand-in date type: a `Candidat` after a refused call and two
accepted ones. -/
theorem C15_invariant_atteignable_witness :
    InvariantPersonne dateTriplet
        (suiteCandidat (Build.debug "Personne.cpp")
          (Candidat.mk
            (Personne.mk "046 454 286" "Jeanne" "Tremblay" "1 rue Principale" (15, 6, 1990))
            PartisPolitiques.INDEPENDANT)
          ["", "123 New St", "2 rue du Parc"]).toPersonne ∧
    (suiteCandidat (Build.debug "Personne.cpp")
          (Candidat.mk
            (Personne.mk "046 454 286" "Jeanne" "Tremblay" "1 rue Principale" (15, 6, 1990))
            PartisPolitiques.INDEPENDANT)
          ["", "123 New St", "2 rue du Parc"]).reqAdresse = "2 rue du Parc" ∧
    InvariantPersonne dateTriplet
        (suitePersonne (Build.debug "Personne.cpp") dateTriplet
          (Personne.mk "046 454 286" "Jeanne" "Tremblay" "1 rue Principale" (15, 6, 1990))
          ["123 New St", ""]) :=
  ⟨((C15_invariant_atteignable "Personne.cpp" dateTriplet).2.1 "046 454 286" "Jeanne" "Tremblay"
      "1 rue Principale" (15, 6, 1990) PartisPolitiques.INDEPENDANT _ _ rfl).1,
    by decide,
    ((C15_invariant_atteignable "Personne.cpp" dateTriplet).1 "046 454 286" "Jeanne" "Tremblay"
      "1 rue Principale" (15, 6, 1990) _ _ rfl).1⟩

/-- C16: in the debug build, with an id that passes `validerNas`, a non-empty first name and
address and a valid date (the date comparing equal to itself), an empty last name passes every
precondition and postcondition and stops the constructor with the `InvariantException` of the
clause `!m_nom.empty()`; and the constructor returns exactly when the five preconditions hold
and the last name is not empty. -/
theorem C16_nom_vide_invariant {Date : Type} (f : String) (D : DateOps Date)
    (nas prenom adresse : String) (d : Date)
    (hegal : D.operator_eq d d = true) :
    (validerNas nas = Except.ok true → prenom ≠ "" → adresse ≠ "" →
      D.validerDate (D.reqJour d) (D.reqMois d) (D.reqAnnee d) = true →
      Personne.constructeur (Build.debug f) D nas prenom "" adresse d =
          Except.error (Echec.contrat (InvariantException f 84 "!m_nom.empty()")) ∧
        (InvariantException f 84 "!m_nom.empty()").genre = Genre.invariant ∧
        (InvariantException f 84 "!m_nom.empty()").m_expression = "!m_nom.empty()") ∧
    (∀ nom : String,
      (∃ p : Personne Date,
          Personne.constructeur (Build.debug f) D nas prenom nom adresse d = Except.ok p) ↔
        (nas ≠ "" ∧ validerNas nas = Except.ok true ∧ prenom ≠ "" ∧ adresse ≠ "" ∧
          D.validerDate (D.reqJour d) (D.reqMois d) (D.reqAnnee d) = true ∧ nom ≠ "")) := by
  have hd : D.validerDate (D.reqJour d) (D.reqMois d) (D.reqAnnee d) = D.dateValide d := rfl
  constructor
  · intro h1 h2 h4 h5
    rw [hd] at h5
    have e1 : empty nas = false := by
      rw [empty_false_iff]
      rintro rfl
      exact absurd h1 (by decide)
    have e3 : empty "" = true := rfl
    refine ⟨?_, rfl, rfl⟩
    rw [constructeur_debug]
    simp [e1, (empty_false_iff prenom).mpr h2, (empty_false_iff adresse).mpr h4, h1, h5, hegal, e3]
  · intro nom
    obtain ⟨b, hb⟩ := validerNas_total nas
    rw [constructeur_debug, hb, hd, hegal, ← empty_false_iff, ← empty_false_iff,
      ← empty_false_iff, ← empty_false_iff]
    cases b <;> cases empty nas <;> cases empty prenom <;> cases empty nom <;>
      cases empty adresse <;> cases D.dateValide d <;> simp

/-- Instance of C16 with the stand-in date type. -/
theorem C16_nom_vide_invariant_witness :
    Personne.constructeur (Build.debug "Personne.cpp") dateTriplet "046 454 286" "Jeanne" ""
        "1 rue Principale" (15, 6, 1990) =
      Except.error (Echec.contrat (InvariantException "Personne.cpp" 84 "!m_nom.empty()")) :=
  ((C16_nom_vide_invariant "Personne.cpp" dateTriplet "046 454 286" "Jeanne" "1 rue Principale"
    (15, 6, 1990) rfl).1 rfl (by decide) (by decide) rfl).1

/-- C17: on every string of the form DDD DDD DDD, `validerNas` gives the answer of the
canonical Luhn check on the nine digits (from the rightmost digit, every second digit doubled
and replaced by the sum of the decimal digits of its double, total divisible by 10).  The two
facts behind it: for a digit `d` and a weight 1 or 2 the reduction of the code, `d*w - 9` from
ten on and `d*w` below, is the sum of the decimal digits of `d*w`; and the weight at index
`i` from the left is 2 exactly when the position `8 - i` from the right is a second one. -/
theorem C17_validerNas_est_luhn :
    (∀ s : String, EstFormeNas s → validerNas s = Except.ok (luhnValide (chiffresDe s))) ∧
    (∀ (d : Fin 10) (w : Nat), w = 1 ∨ w = 2 →
      (if ((d : Nat) : Int) * (w : Int) ≥ 10 then ((d : Nat) : Int) * (w : Int) - 9
        else ((d : Nat) : Int) * (w : Int)) = ((sommeChiffres (d * w) : Nat) : Int) ∧
      reduit (d * w) = sommeChiffres (d * w)) ∧
    (∀ n : Nat, sommeChiffres n = (Nat.digits 10 n).sum) ∧
    (∀ i : Nat, i < 9 → multiplicateur.get? i = some (if (8 - i) % 2 = 1 then 2 else 1)) ∧
    multiplicateur.length = 9 := by
  refine ⟨validerNas_luhn, ?_, sommeChiffres_digits, ?_, rfl⟩
  · intro d w hw
    rcases hw with rfl | rfl
    · revert d
      decide
    · revert d
      decide
  · intro i hi
    interval_cases i <;> rfl

/-- Instance of C17 on the id 046 454 286, whose Luhn total is 50. -/
theorem C17_validerNas_est_luhn_witness :
    EstFormeNas "046 454 286" ∧
    validerNas "046 454 286" = Except.ok (luhnValide [0, 4, 6, 4, 5, 4, 2, 8, 6]) ∧
    luhnTotal [0, 4, 6, 4, 5, 4, 2, 8, 6] = 50 :=
  have h : EstFormeNas "046 454 286" :=
    ⟨'0', '4', '6', '4', '5', '4', '2', '8', '6', by decide, rfl⟩
  ⟨h, C17_validerNas_est_luhn.1 "046 454 286" h, by decide⟩

/-- C18: every string that `validerNas` accepts is the text of nine digits with its two
spaces, and replacing exactly one of the nine digits by a different decimal digit, the spaces
untouched, gives a string that `validerNas` rejects. -/
theorem C18_erreur_un_chiffre :
    (∀ s : String, validerNas s = Except.ok true →
      ∃ d : Fin 9 → Fin 10, s = nasDe d ∧
        ∀ (i : Fin 9) (x : Fin 10), x ≠ d i →
          validerNas (nasDe (Function.update d i x)) = Except.ok false) ∧
    (∀ (d : Fin 9 → Fin 10) (i : Fin 9) (x : Fin 10), x ≠ d i →
      validerNas (nasDe d) = Except.ok true →
      validerNas (nasDe (Function.update d i x)) = Except.ok false) := by
  refine ⟨?_, erreur_un_chiffre⟩
  intro s hs
  obtain ⟨d, rfl⟩ := accepte_nasDe s hs
  exact ⟨d, rfl, fun i x hx => erreur_un_chiffre d i x hx hs⟩

/-- Instance of C18: 046 454 286 is accepted, 146 454 286 and 046 454 287 are not. -/
theorem C18_erreur_un_chiffre_witness :
    nasDe ![0, 4, 6, 4, 5, 4, 2, 8, 6] = "046 454 286" ∧
    nasDe (Function.update ![0, 4, 6, 4, 5, 4, 2, 8, 6] 0 1) = "146 454 286" ∧
    validerNas "046 454 286" = Except.ok true ∧
    validerNas (nasDe (Function.update ![0, 4, 6, 4, 5, 4, 2, 8, 6] 0 1)) = Except.ok false ∧
    validerNas (nasDe (Function.update ![0, 4, 6, 4, 5, 4, 2, 8, 6] 8 7)) = Except.ok false :=
  ⟨by decide, by decide, rfl,
    C18_erreur_un_chiffre.2 ![0, 4, 6, 4, 5, 4, 2, 8, 6] 0 1 (by decide) rfl,
    C18_erreur_un_chiffre.2 ![0, 4, 6, 4, 5, 4, 2, 8, 6] 8 7 (by decide) rfl⟩

/-- C19: for every choice of the first eight digits there is exactly one ninth digit with
which `validerNas` accepts the text `d0d1d2 d3d4d5 d6d7d8`. -/
theorem C19_chiffre_de_controle (d0 d1 d2 d3 d4 d5 d6 d7 : Fin 10) :
    ∃! d8 : Fin 10,
      validerNas (formeGroupee (chiffre d0) (chiffre d1) (chiffre d2) (chiffre d3) (chiffre d4)
        (chiffre d5) (chiffre d6) (chiffre d7) (chiffre d8)) = Except.ok true := by
  have hv : ∀ d8 : Fin 10,
      (validerNas (formeGroupee (chiffre d0) (chiffre d1) (chiffre d2) (chiffre d3) (chiffre d4)
        (chiffre d5) (chiffre d6) (chiffre d7) (chiffre d8)) = Except.ok true) ↔
      (reduit (d0 * 1) + reduit (d1 * 2) + reduit (d2 * 1) + reduit (d3 * 2) + reduit (d4 * 1) +
        reduit (d5 * 2) + reduit (d6 * 1) + reduit (d7 * 2) + (d8 : Nat)) % 10 = 0 := by
    intro d8
    rw [validerNas_chiffres]
    unfold sommePonderee
    rw [(reduit_sommeChiffres d8 d8.isLt).1]
    simp
  generalize hR : reduit (d0 * 1) + reduit (d1 * 2) + reduit (d2 * 1) + reduit (d3 * 2) +
    reduit (d4 * 1) + reduit (d5 * 2) + reduit (d6 * 1) + reduit (d7 * 2) = R at hv
  refine ⟨⟨(10 - R % 10) % 10, by omega⟩, ?_, ?_⟩
  · exact (hv _).mpr (by simp only; omega)
  · intro y hy
    have h := (hv y).mp hy
    apply Fin.ext
    have hy10 := y.isLt
    simp only
    omega

/-- C20: `Candidat` declares no `operator==`, so `c1 == c2` on two `Candidat` is
`Personne::operator==` on their `Personne` parts and the party plays no part: two `Candidat`
with equal id, first name, last name and address and dates equal under `Date::operator==`
compare equal, also when their parties differ (as LIBERAL and CONSERVATEUR do), and a
`Candidat` compares equal to a `Personne` holding the same five fields. -/
theorem C20_egalite_ignore_parti {Date : Type} (D : DateOps Date) :
    (∀ (p q : Personne Date) (parti1 parti2 : PartisPolitiques),
      Personne.operator_eq D (Candidat.mk p parti1).toPersonne (Candidat.mk q parti2).toPersonne =
        Personne.operator_eq D p q) ∧
    (∀ c1 c2 : Candidat Date,
      c1.reqNas = c2.reqNas → c1.reqPrenom = c2.reqPrenom → c1.reqNom = c2.reqNom →
      c1.reqAdresse = c2.reqAdresse →
      D.operator_eq c1.reqDateNaissance c2.reqDateNaissance = true →
      Personne.operator_eq D c1.toPersonne c2.toPersonne = true) ∧
    (∀ p : Personne Date, D.operator_eq p.m_dateNaissance p.m_dateNaissance = true →
      Personne.operator_eq D (Candidat.mk p PartisPolitiques.LIBERAL).toPersonne
        (Candidat.mk p PartisPolitiques.CONSERVATEUR).toPersonne = true ∧
      (Candidat.mk p PartisPolitiques.LIBERAL).reqPartiPolitique ≠
        (Candidat.mk p PartisPolitiques.CONSERVATEUR).reqPartiPolitique) ∧
    (∀ (c : Candidat Date) (p : Personne Date),
      c.reqNas = p.reqNas → c.reqPrenom = p.reqPrenom → c.reqNom = p.reqNom →
      c.reqAdresse = p.reqAdresse →
      D.operator_eq c.reqDateNaissance p.reqDateNaissance = true →
      Personne.operator_eq D c.toPersonne p = true) := by
  have key : ∀ p q : Personne Date, p.m_nas = q.m_nas → p.m_prenom = q.m_prenom →
      p.m_nom = q.m_nom → p.m_adresse = q.m_adresse →
      D.operator_eq p.m_dateNaissance q.m_dateNaissance = true →
      Personne.operator_eq D p q = true := by
    intro p q h1 h2 h3 h4 h5
    unfold Personne.operator_eq
    simp [h1, h2, h3, h4, h5]
  refine ⟨fun _ _ _ _ => rfl, ?_, ?_, ?_⟩
  · intro c1 c2 h1 h2 h3 h4 h5
    exact key _ _ h1 h2 h3 h4 h5
  · intro p hp
    exact ⟨key _ _ rfl rfl rfl rfl hp, by simp [Candidat.reqPartiPolitique]⟩
  · intro c p h1 h2 h3 h4 h5
    exact key _ _ h1 h2 h3 h4 h5

/-- Instance of C20 with the stand-in date type: a LIBERAL and a CONSERVATEUR built from the
same five arguments compare equal. -/
theorem C20_egalite_ignore_parti_witness :
    Candidat.constructeur (Build.debug "Personne.cpp") dateTriplet "046 454 286" "Jeanne"
        "Tremblay" "1 rue Principale" (15, 6, 1990) PartisPolitiques.LIBERAL =
      Except.ok (Candidat.mk
        (Personne.mk "046 454 286" "Jeanne" "Tremblay" "1 rue Principale" (15, 6, 1990))
        PartisPolitiques.LIBERAL) ∧
    Personne.operator_eq dateTriplet
        (Candidat.mk
          (Personne.mk "046 454 286" "Jeanne" "Tremblay" "1 rue Principale" (15, 6, 1990))
          PartisPolitiques.LIBERAL).toPersonne
        (Candidat.mk
          (Personne.mk "046 454 286" "Jeanne" "Tremblay" "1 rue Principale" (15, 6, 1990))
          PartisPolitiques.CONSERVATEUR).toPersonne = true ∧
    Personne.operator_eq dateTriplet
        (Candidat.mk
          (Personne.mk "046 454 286" "Jeanne" "Tremblay" "1 rue Principale" (15, 6, 1990))
          PartisPolitiques.LIBERAL).toPersonne
        (Personne.mk "046 454 286" "Jeanne" "Tremblay" "1 rue Principale" (15, 6, 1990)) = true :=
  ⟨rfl,
    ((C20_egalite_ignore_parti dateTriplet).2.2.1
      (Personne.mk "046 454 286" "Jeanne" "Tremblay" "1 rue Principale" (15, 6, 1990)) rfl).1,
    (C20_egalite_ignore_parti dateTriplet).2.2.2
      (Candidat.mk
        (Personne.mk "046 454 286" "Jeanne" "Tremblay" "1 rue Principale" (15, 6, 1990))
        PartisPolitiques.LIBERAL)
      (Personne.mk "046 454 286" "Jeanne" "Tremblay" "1 rue Principale" (15, 6, 1990))
      rfl rfl rfl rfl rfl⟩
